import Mathlib

/-! Verification of the flywheel-ml control plane against its natural-language
specification.  The Rust sources are shallowly embedded: f64 values are
modelled as exact rationals, Uuid values as natural numbers, instants and
timestamps as integers (seconds), and random draws as explicit oracle
arguments.  Fallible operations return Except or Option.
-/

namespace Flywheel

/-- Minimal model of serde_json::Value.  Objects are association lists
(serde_json maps have unique keys; lookup returns the first match). -/
inductive Json where
  | null : Json
  | bool : Bool → Json
  | num : Rat → Json
  | str : String → Json
  | arr : List Json → Json
  | obj : List (String × Json) → Json

/-- serde_json::Value::get on an object: the value stored under the key. -/
def Json.get (j : Json) (key : String) : Option Json :=
  match j with
  | .obj fields => (fields.find? (fun kv => kv.1 == key)).map (fun kv => kv.2)
  | _ => none

/-- Value::as_f64 (numbers only; f64 modelled as Rat). -/
def Json.as_f64 (j : Json) : Option Rat :=
  match j with
  | .num q => some q
  | _ => none

/-- Value::as_str. -/
def Json.as_str (j : Json) : Option String :=
  match j with
  | .str s => some s
  | _ => none

/-- Value::as_bool. -/
def Json.as_bool (j : Json) : Option Bool :=
  match j with
  | .bool b => some b
  | _ => none

/-- Deserializing an unsigned integer (u64/usize) from a JSON number:
serde accepts integral, non-negative numbers. -/
def Json.as_u64 (j : Json) : Option Nat :=
  match j with
  | .num q => if q.den == 1 && 0 ≤ q.num then some q.num.toNat else none
  | _ => none

/-- Rust str::to_lowercase, modelled as per-character ASCII lowering
(the literals compared against in this codebase are all ASCII). -/
def toLowercase (s : String) : String :=
  String.map Char.toLower s

/-- Rust str::eq_ignore_ascii_case: equality after ASCII case folding. -/
def eqIgnoreAsciiCase (a b : String) : Bool :=
  toLowercase a == toLowercase b

/-! Domain types (crates/flywheel-core/src/feedback.rs, prediction.rs) -/

/-- GroundTruth from flywheel-core/src/feedback.rs. -/
inductive GroundTruth where
  | Label : String → GroundTruth
  | Value : Rat → GroundTruth
  | Binary : Bool → GroundTruth
  | Ranking : List String → GroundTruth
  | MultiLabel : List String → GroundTruth
  | Custom : Json → GroundTruth

/-- FeedbackSource from flywheel-core/src/feedback.rs. -/
inductive FeedbackSource where
  | Explicit (user_id action : String)
  | Implicit (event_type : String) (context : List (String × String))
  | Automated (rule : String) (confidence : Rat)
  | Manual (annotator_id : String)

/-- FeedbackSource::confidence. -/
def FeedbackSource.confidence (s : FeedbackSource) : Rat :=
  match s with
  | .Explicit _ _ => 1
  | .Implicit _ _ => 7/10
  | .Automated _ confidence => confidence
  | .Manual _ => 95/100

/-- PredictionResult from flywheel-core/src/prediction.rs (the field
named class in Rust is cls here, class being a Lean keyword). -/
inductive PredictionResult where
  | Anomaly (score : Rat) (is_anomaly : Bool) (threshold : Rat)
      (contributing_features : List String)
  | Classification (cls : String) (probabilities : List (String × Rat))
  | Regression (value : Rat) (confidence_interval : Option (Rat × Rat))
  | Clustering (cluster_id : Int) (distance : Rat)
  | Embedding (vector : List Rat)
  | Custom (value : Json)

/-- Prediction from flywheel-core/src/prediction.rs (timestamp in
seconds as Int). -/
structure Prediction where
  prediction_id : String
  model_id : String
  model_version : String
  timestamp : Int
  result : PredictionResult
  confidence : Option Rat
  latency_us : Nat
  features_hash : String
  metadata : List (String × String)

/-- StoredPrediction from flywheel-core/src/prediction.rs. -/
structure StoredPrediction where
  prediction : Prediction
  features : Json
  source_record_id : String
  stored_at : Int
  ttl_seconds : Option Nat

/-- StoredPrediction::is_expired; Utc::now() is passed in as now. -/
def StoredPrediction.is_expired (s : StoredPrediction) (now : Int) : Bool :=
  match s.ttl_seconds with
  | some ttl => decide (now - s.stored_at > (ttl : Int))
  | none => false

/-- FeedbackRecord from flywheel-core/src/feedback.rs.  The prediction_id
string holds a Uuid in the source; Uuids are modelled as Nat, and the
Uuid::parse_str step of the join transform is dropped (a malformed id
takes the same PredictionNotFound error path as a missing row). -/
structure FeedbackRecord where
  feedback_id : String
  prediction_id : Nat
  model_id : String
  ground_truth : GroundTruth
  feedback_time : Int
  delay_ms : Nat
  source : FeedbackSource
  metadata : List (String × String)

/-- LabeledExample from flywheel-core/src/feedback.rs. -/
structure LabeledExample where
  example_id : String
  prediction_id : String
  model_id : String
  model_version : String
  features : Json
  prediction : Json
  ground_truth : GroundTruth
  prediction_timestamp : Int
  feedback_timestamp : Int
  delay_ms : Nat
  feedback_confidence : Rat
  is_correct : Option Bool
  metadata : List (String × String)

/-- LabeledExample::compute_correctness (feedback.rs lines 221-247);
the float literal 0.1 is modelled as the exact rational 1/10. -/
def LabeledExample.compute_correctness (prediction : PredictionResult)
    (ground_truth : GroundTruth) : Option Bool :=
  match prediction, ground_truth with
  | .Anomaly _ is_anomaly _ _, .Binary truth => some (is_anomaly == truth)
  | .Anomaly _ is_anomaly _ _, .Label label =>
      let is_positive :=
        (toLowercase label) ∈ (["anomaly", "true", "yes", "1", "positive"] : List String)
      some (is_anomaly == decide is_positive)
  | .Classification cls _, .Label truth => some (eqIgnoreAsciiCase cls truth)
  | .Regression value _, .Value truth =>
      let tolerance := |truth| * (1/10)
      some (decide (|value - truth| ≤ tolerance))
  | _, _ => none

/-- PredictionResult serialized back to JSON by serde (tagged with type,
snake_case); used for the prediction field of a LabeledExample. -/
def PredictionResult.toJson (r : PredictionResult) : Json :=
  match r with
  | .Anomaly score is_anomaly threshold contributing_features =>
      .obj [("type", .str "anomaly"), ("score", .num score),
            ("is_anomaly", .bool is_anomaly), ("threshold", .num threshold),
            ("contributing_features", .arr (contributing_features.map Json.str))]
  | .Classification cls probabilities =>
      .obj [("type", .str "classification"), ("class", .str cls),
            ("probabilities", .obj (probabilities.map (fun kv => (kv.1, Json.num kv.2))))]
  | .Regression value confidence_interval =>
      .obj ([("type", .str "regression"), ("value", .num value)] ++
            (match confidence_interval with
             | some (lo, hi) => [("confidence_interval", Json.arr [.num lo, .num hi])]
             | none => [("confidence_interval", Json.null)]))
  | .Clustering cluster_id distance =>
      .obj [("type", .str "clustering"), ("cluster_id", .num (cluster_id : Rat)),
            ("distance", .num distance)]
  | .Embedding vector =>
      .obj [("type", .str "embedding"), ("vector", .arr (vector.map Json.num))]
  | .Custom value => value

/-- LabeledExample::from_prediction_and_feedback; Uuid::new_v4 for the
example id is modelled by the freshId argument. -/
def LabeledExample.from_prediction_and_feedback (freshId : String)
    (stored : StoredPrediction) (feedback : FeedbackRecord) : LabeledExample :=
  let is_correct :=
    LabeledExample.compute_correctness stored.prediction.result feedback.ground_truth
  { example_id := freshId
    prediction_id := stored.prediction.prediction_id
    model_id := stored.prediction.model_id
    model_version := stored.prediction.model_version
    features := stored.features
    prediction := stored.prediction.result.toJson
    ground_truth := feedback.ground_truth
    prediction_timestamp := stored.prediction.timestamp
    feedback_timestamp := feedback.feedback_time
    delay_ms := feedback.delay_ms
    feedback_confidence := feedback.source.confidence
    is_correct := is_correct
    metadata := feedback.metadata }

/-- LabeledExample::is_positive (feedback.rs lines 249-258). -/
def LabeledExample.is_positive (e : LabeledExample) : Bool :=
  match e.ground_truth with
  | .Binary b => b
  | .Label s =>
      decide ((toLowercase s) ∈ (["anomaly", "true", "yes", "1", "positive"] : List String))
  | _ => false

/-- LabeledExample::is_false_positive. -/
def LabeledExample.is_false_positive (e : LabeledExample) : Bool :=
  !e.is_positive && e.is_correct == some false

/-! Circuit breaker (crates/flywheel-ml-inference/src/circuit_breaker.rs).
Instants are modelled as Int (monotone clock, seconds are immaterial); every
operation that reads the clock takes the current instant as an argument. -/

/-- CircuitState. -/
inductive CircuitState where
  | Closed
  | Open
  | HalfOpen
deriving DecidableEq

/-- CircuitBreakerConfig. -/
structure CircuitBreakerConfig where
  failure_threshold : Nat
  success_threshold : Nat
  half_open_max_calls : Nat
  reset_timeout : Int
deriving DecidableEq

/-- CircuitBreakerConfig::default. -/
def CircuitBreakerConfig.default : CircuitBreakerConfig :=
  { failure_threshold := 5, success_threshold := 3,
    half_open_max_calls := 3, reset_timeout := 30 }

/-- CircuitBreaker state (atomics and locks flattened into plain fields;
the claims concern the sequential state machine). -/
structure CircuitBreaker where
  state : CircuitState
  failure_count : Nat
  success_count : Nat
  last_failure_time : Option Int
  config : CircuitBreakerConfig
deriving DecidableEq

/-- CircuitBreaker::new. -/
def CircuitBreaker.new (config : CircuitBreakerConfig) : CircuitBreaker :=
  { state := .Closed, failure_count := 0, success_count := 0,
    last_failure_time := none, config := config }

/-- CircuitBreaker::can_execute; last_failure.elapsed() is now minus the
stored instant.  Returns the bool result and the possibly updated breaker. -/
def CircuitBreaker.can_execute (cb : CircuitBreaker) (now : Int) :
    Bool × CircuitBreaker :=
  match cb.state with
  | .Closed => (true, cb)
  | .Open =>
      match cb.last_failure_time with
      | some last_failure =>
          if now - last_failure > cb.config.reset_timeout then
            (true, { cb with state := .HalfOpen, success_count := 0 })
          else
            (false, cb)
      | none => (false, cb)
  | .HalfOpen => (true, cb)

/-- CircuitBreaker::record_success. -/
def CircuitBreaker.record_success (cb : CircuitBreaker) : CircuitBreaker :=
  match cb.state with
  | .Closed => { cb with failure_count := 0 }
  | .HalfOpen =>
      let count := cb.success_count + 1
      if count ≥ cb.config.success_threshold then
        { cb with success_count := count, state := .Closed, failure_count := 0 }
      else
        { cb with success_count := count }
  | .Open => cb

/-- CircuitBreaker::record_failure; Instant::now() is the now argument. -/
def CircuitBreaker.record_failure (cb : CircuitBreaker) (now : Int) : CircuitBreaker :=
  match cb.state with
  | .Closed =>
      let count := cb.failure_count + 1
      if count ≥ cb.config.failure_threshold then
        { cb with failure_count := count, state := .Open,
                  last_failure_time := some now }
      else
        { cb with failure_count := count }
  | .HalfOpen => { cb with state := .Open, last_failure_time := some now }
  | .Open => cb

/-- A sequence of record_failure calls at the given instants. -/
def CircuitBreaker.failMany (cb : CircuitBreaker) (times : List Int) : CircuitBreaker :=
  times.foldl CircuitBreaker.record_failure cb

/-- A sequence of n record_success calls. -/
def CircuitBreaker.succMany (cb : CircuitBreaker) : Nat → CircuitBreaker
  | 0 => cb
  | n + 1 => CircuitBreaker.succMany cb.record_success n

/-! Sampler (crates/flywheel-ml-training/src/sampling.rs).
rand::thread_rng draws are modelled by explicit oracle arguments: a
uniform rational u for gen::<f64>() comparisons, and a function rng
giving, for each requested exclusive bound k, the gen_range(0..k) draw. -/

/-- SamplingConfig from flywheel-core/src/feedback.rs. -/
inductive SamplingConfig where
  | All
  | Random (rate : Rat)
  | Stratified (positive_rate negative_rate : Rat)
  | HardNegative (threshold : Rat)
  | ReservoirSampling (size : Nat)

/-- ReservoirSampler (sampling.rs lines 90-121). -/
structure ReservoirSampler where
  size : Nat
  reservoir : List LabeledExample
  count : Nat

/-- ReservoirSampler::new (Vec::with_capacity size starts empty). -/
def ReservoirSampler.new (size : Nat) : ReservoirSampler :=
  { size := size, reservoir := [], count := 0 }

/-- ReservoirSampler::add.  The source increments count first, then for a
full reservoir draws j = gen_range(0..count); the draw is rng count. -/
def ReservoirSampler.add (s : ReservoirSampler) (ex : LabeledExample)
    (rng : Nat → Nat) : ReservoirSampler :=
  let count := s.count + 1
  if s.reservoir.length < s.size then
    { s with count := count, reservoir := s.reservoir ++ [ex] }
  else
    let j := rng count
    if j < s.size then
      { s with count := count, reservoir := s.reservoir.set j ex }
    else
      { s with count := count }

/-- ReservoirSampler::get_sample (a clone of the reservoir). -/
def ReservoirSampler.get_sample (s : ReservoirSampler) : List LabeledExample :=
  s.reservoir

/-- A sequence of add calls. -/
def ReservoirSampler.addMany (s : ReservoirSampler) (examples : List LabeledExample)
    (rng : Nat → Nat) : ReservoirSampler :=
  examples.foldl (fun acc x => acc.add x rng) s

/-- Sampler (sampling.rs lines 4-16). -/
structure Sampler where
  config : SamplingConfig
  reservoir : Option ReservoirSampler

/-- Sampler::new: only a ReservoirSampling config allocates a reservoir. -/
def Sampler.new (config : SamplingConfig) : Sampler :=
  let reservoir :=
    match config with
    | .ReservoirSampling size => some (ReservoirSampler.new size)
    | _ => none
  { config := config, reservoir := reservoir }

/-- rand_rate(rate) = rng.gen::<f64>() < rate, with the uniform draw u. -/
def rand_rate (rate : Rat) (u : Rat) : Bool :=
  decide (u < rate)

/-- Sampler::should_sample (sampling.rs lines 49-77). -/
def Sampler.should_sample (s : Sampler) (ex : LabeledExample) (u : Rat) : Bool :=
  match s.config with
  | .All => true
  | .Random rate => rand_rate rate u
  | .Stratified positive_rate negative_rate =>
      if ex.is_positive then rand_rate positive_rate u
      else rand_rate negative_rate u
  | .HardNegative threshold =>
      if ex.is_false_positive then
        match (ex.prediction.get "confidence").bind Json.as_f64 with
        | some confidence => decide (confidence > threshold)
        | none => ex.is_positive
      else
        ex.is_positive
  | .ReservoirSampling _ => true

/-- Sampler::sample_one (sampling.rs lines 33-47). -/
def Sampler.sample_one (s : Sampler) (ex : LabeledExample) (u : Rat)
    (rng : Nat → Nat) : Option LabeledExample × Sampler :=
  match s.reservoir with
  | some reservoir =>
      (none, { s with reservoir := some (reservoir.add ex rng) })
  | none =>
      if s.should_sample ex u then (some ex, s) else (none, s)

/-- Sampler::drain_reservoir.  Vec::clone allocates exactly the cloned
length, so samples.capacity() in the source equals samples.length here. -/
def Sampler.drain_reservoir (s : Sampler) : List LabeledExample × Sampler :=
  match s.reservoir with
  | some reservoir =>
      let samples := reservoir.get_sample
      (samples, { s with reservoir := some (ReservoirSampler.new samples.length) })
  | none => ([], s)

/-! Statistical drift (crates/flywheel-drift/src/statistical.rs and
detector.rs).  f64::ln has no rational counterpart, so compute_psi takes
the logarithm as an explicit function argument. -/

/-- histogram (statistical.rs lines 44-69).  Folding f64::min from
INFINITY (resp. f64::max from NEG_INFINITY) over a nonempty list equals
folding from its first element.  f64::EPSILON is 2^(-52), and the
floor-as-usize cast saturates negatives at zero, matching Int.toNat. -/
def histogram (values : List Rat) (bins : Nat) : List Rat :=
  match values with
  | [] => List.replicate bins 0
  | v0 :: _ =>
      let minVal := values.foldl min v0
      let maxVal := values.foldl max v0
      if |maxVal - minVal| < 1 / 2 ^ 52 then
        (List.replicate bins (0 : Rat)).set 0 1
      else
        let bin_width := (maxVal - minVal) / (bins : Rat)
        let counts := values.foldl (fun counts v =>
          let bin := min (Int.toNat ⌊(v - minVal) / bin_width⌋) (bins - 1)
          counts.set bin (counts.getD bin 0 + 1)) (List.replicate bins (0 : Nat))
        counts.map (fun c => (c : Rat) / (values.length : Rat))

/-- One pass of the PSI accumulation loop (statistical.rs lines 24-29):
both proportions floored at 0.0001, accumulating (cur - ref) * ln(cur / ref). -/
def psiTerms (ln : Rat → Rat) : List (Rat × Rat) → Rat
  | [] => 0
  | (ref_pct, cur_pct) :: rest =>
      let r := max ref_pct (1/10000)
      let c := max cur_pct (1/10000)
      (c - r) * ln (c / r) + psiTerms ln rest

/-- compute_psi (statistical.rs lines 20-31): the reference and the current
dataset are each histogrammed by the histogram function (each over its own min and
max), zipped, and accumulated. -/
def compute_psi (ln : Rat → Rat) (reference current : List Rat) (bins : Nat) : Rat :=
  psiTerms ln ((histogram reference bins).zip (histogram current bins))

/-- Binning over the fixed range [lo, hi]: equal-width bins, edge values
clamped into the outer bins.  Companion of compute_psi_from_spec. -/
def histogramOnRange (lo hi : Rat) (values : List Rat) (bins : Nat) : List Rat :=
  let width := (hi - lo) / (bins : Rat)
  let counts := values.foldl (fun counts v =>
    let bin := min (Int.toNat ⌊(v - lo) / width⌋) (bins - 1)
    counts.set bin (counts.getD bin 0 + 1)) (List.replicate bins (0 : Nat))
  counts.map (fun c => (c : Rat) / (values.length : Rat))

/-- The PSI as the spec words it: bin BOTH datasets into bins-many equal-width
bins over the REFERENCE min and max, then sum (q - p) * ln(q / p) with a
1e-4 floor on both proportions.  This is the spec-side definition used to
compare against compute_psi. -/
def compute_psi_from_spec (ln : Rat → Rat) (reference current : List Rat)
    (bins : Nat) : Rat :=
  let lo := reference.foldl min (reference.headD 0)
  let hi := reference.foldl max (reference.headD 0)
  psiTerms ln ((histogramOnRange lo hi reference bins).zip
               (histogramOnRange lo hi current bins))

/-- PerformanceTracker (crates/flywheel-drift/src/performance.rs). -/
structure PerformanceTracker where
  true_positives : Nat
  true_negatives : Nat
  false_positives : Nat
  false_negatives : Nat
  latencies : List Nat
  errors : Nat
  total : Nat
deriving DecidableEq

/-- PerformanceTracker::new. -/
def PerformanceTracker.new : PerformanceTracker :=
  { true_positives := 0, true_negatives := 0, false_positives := 0,
    false_negatives := 0, latencies := [], errors := 0, total := 0 }

/-- PerformanceTracker::accuracy: (TP+TN)/(TP+TN+FP+FN), 0 on empty. -/
def PerformanceTracker.accuracy (t : PerformanceTracker) : Rat :=
  let correct := t.true_positives + t.true_negatives
  let total := t.true_positives + t.true_negatives +
               t.false_positives + t.false_negatives
  if total == 0 then 0 else (correct : Rat) / (total : Rat)

/-- DriftConfig (detector.rs lines 5-12). -/
structure DriftConfig where
  psi_threshold : Rat
  kl_threshold : Rat
  accuracy_threshold : Rat
  window_size : Nat
  check_interval_secs : Nat
deriving DecidableEq

/-- DriftConfig::default (psi 0.25, kl 0.1, accuracy 0.85, window 10000). -/
def DriftConfig.default : DriftConfig :=
  { psi_threshold := 1/4, kl_threshold := 1/10, accuracy_threshold := 85/100,
    window_size := 10000, check_interval_secs := 300 }

/-- DriftType. -/
inductive DriftType where
  | Statistical
  | Performance
  | Both
deriving DecidableEq

/-- DriftSeverity. -/
inductive DriftSeverity where
  | None
  | Low
  | Medium
  | High
  | Critical
deriving DecidableEq

/-- DriftSeverity::from_psi. -/
def DriftSeverity.from_psi (psi : Rat) : DriftSeverity :=
  if psi < 1/10 then .None
  else if psi < 1/4 then .Low
  else if psi < 1/2 then .Medium
  else if psi < 1 then .High
  else .Critical

/-- DriftResult. -/
structure DriftResult where
  is_drifted : Bool
  drift_type : Option DriftType
  severity : DriftSeverity
  psi_score : Option Rat
  kl_divergence : Option Rat
  accuracy_delta : Option Rat
deriving DecidableEq

/-- DriftDetector (detector.rs lines 68-74). -/
structure DriftDetector where
  config : DriftConfig
  reference_values : List Rat
  current_window : List Rat
  performance_tracker : PerformanceTracker
  baseline_accuracy : Rat
deriving DecidableEq

/-- DriftDetector::new (baseline accuracy 0.9, empty reference/window). -/
def DriftDetector.new (config : DriftConfig) : DriftDetector :=
  { config := config, reference_values := [], current_window := [],
    performance_tracker := PerformanceTracker.new, baseline_accuracy := 9/10 }

/-- DriftDetector::set_reference. -/
def DriftDetector.set_reference (d : DriftDetector) (values : List Rat) :
    DriftDetector :=
  { d with reference_values := values }

/-- DriftDetector::add_value: push, evict the oldest above window_size. -/
def DriftDetector.add_value (d : DriftDetector) (value : Rat) : DriftDetector :=
  let w := d.current_window ++ [value]
  if w.length > d.config.window_size then { d with current_window := w.drop 1 }
  else { d with current_window := w }

/-- A sequence of add_value calls. -/
def DriftDetector.addValues (d : DriftDetector) (values : List Rat) : DriftDetector :=
  values.foldl DriftDetector.add_value d

/-- DriftDetector::check_drift (detector.rs lines 102-138). -/
def DriftDetector.check_drift (ln : Rat → Rat) (d : DriftDetector) : DriftResult :=
  if d.reference_values.isEmpty || d.current_window.length < 100 then
    { is_drifted := false, drift_type := none, severity := .None,
      psi_score := none, kl_divergence := none, accuracy_delta := none }
  else
    let psi := compute_psi ln d.reference_values d.current_window 10
    let statistical_drifted := decide (psi > d.config.psi_threshold)
    let current_accuracy := d.performance_tracker.accuracy
    let accuracy_delta := d.baseline_accuracy - current_accuracy
    let performance_drifted := decide (current_accuracy < d.config.accuracy_threshold)
    let verdict : Bool × Option DriftType :=
      match statistical_drifted, performance_drifted with
      | true, true => (true, some .Both)
      | true, false => (true, some .Statistical)
      | false, true => (true, some .Performance)
      | false, false => (false, none)
    { is_drifted := verdict.1, drift_type := verdict.2,
      severity := DriftSeverity.from_psi psi,
      psi_score := some psi, kl_divergence := none,
      accuracy_delta := some accuracy_delta }

/-! Persistence (crates/flywheel-db/src/repo.rs, its entities, and the
unique index idx_pipelines_name_namespace created by migration
m20240101_000001_create_tables.rs).  A table is a list of rows.  sea_orm
ActiveModel::insert appends a row, failing on a unique-constraint hit;
ActiveModel::update rewrites the row with the matching primary key,
setting exactly the Set fields, and fails when no row matches. -/

/-- Database errors relevant to the claims. -/
inductive DbErr where
  | UniqueViolation
  | RecordNotUpdated
deriving DecidableEq

/-- prediction entity row (flywheel-db/src/entity/prediction.rs); Uuids
are Nat, timestamps Int seconds, JSON payloads Json. -/
structure PredictionRow where
  id : Nat
  pipeline_id : Nat
  model_id : String
  model_version : String
  features_json : Json
  prediction_json : Json
  created_at : Int
  feedback_id : Option Nat

/-- PredictionRepo::create (repo.rs lines 197-216): inserts a fresh row
with feedback_id null. -/
def PredictionRepo.create (db : List PredictionRow) (freshId : Nat) (now : Int)
    (pipeline_id : Nat) (model_id model_version : String)
    (features_json prediction_json : Json) : PredictionRow × List PredictionRow :=
  let row : PredictionRow :=
    { id := freshId, pipeline_id := pipeline_id, model_id := model_id,
      model_version := model_version, features_json := features_json,
      prediction_json := prediction_json, created_at := now, feedback_id := none }
  (row, db ++ [row])

/-- PredictionRepo::find_by_id. -/
def PredictionRepo.find_by_id (db : List PredictionRow) (id : Nat) :
    Option PredictionRow :=
  db.find? (fun row => row.id == id)

/-- PredictionRepo::link_feedback (repo.rs lines 222-233): an ActiveModel
update that sets only feedback_id on the row with the given primary key.
The update carries no condition on the current feedback_id value. -/
def PredictionRepo.link_feedback (db : List PredictionRow)
    (prediction_id feedback_id : Nat) :
    Except DbErr (PredictionRow × List PredictionRow) :=
  match db.find? (fun row => row.id == prediction_id) with
  | none => .error .RecordNotUpdated
  | some row =>
      let updated := { row with feedback_id := some feedback_id }
      .ok (updated, db.map (fun r => if r.id == prediction_id then updated else r))

/-- pipeline::PipelineStatus. -/
inductive PipelineStatus where
  | Pending
  | Running
  | Stopped
  | Failed
  | Disabled
deriving DecidableEq

/-- pipeline entity row; the namespace column is called nspace because
namespace is a Lean keyword. -/
structure PipelineRow where
  id : Nat
  name : String
  nspace : String
  spec_hash : String
  spec_yaml : String
  status : PipelineStatus
  conveyor_pipeline_id : Option String
  created_at : Int
  updated_at : Int
deriving DecidableEq

/-- PipelineRepo::create (repo.rs lines 9-28): inserts a Pending pipeline;
the insert hits the unique index on (name, namespace) when a row with the
same pair exists. -/
def PipelineRepo.create (db : List PipelineRow) (freshId : Nat) (now : Int)
    (name nspace spec_hash spec_yaml : String) :
    Except DbErr (PipelineRow × List PipelineRow) :=
  if db.any (fun row => row.name == name && row.nspace == nspace) then
    .error .UniqueViolation
  else
    let row : PipelineRow :=
      { id := freshId, name := name, nspace := nspace, spec_hash := spec_hash,
        spec_yaml := spec_yaml, status := .Pending,
        conveyor_pipeline_id := none, created_at := now, updated_at := now }
    .ok (row, db ++ [row])

/-- PipelineRepo::find_by_name: the single row matching name and namespace. -/
def PipelineRepo.find_by_name (db : List PipelineRow) (name nspace : String) :
    Option PipelineRow :=
  db.find? (fun row => row.name == name && row.nspace == nspace)

/-- tonic::Status codes appearing in the control service. -/
inductive StatusCode where
  | InvalidArgument
  | Internal
  | NotFound
deriving DecidableEq

/-- CreatePipelineRequest fields used by the handler. -/
structure CreatePipelineRequest where
  name : String
  nspace : String
  spec_yaml : String

/-- CreatePipelineResponse (ids and status kept structured). -/
structure CreatePipelineResponse where
  pipeline_id : Nat
  name : String
  status : PipelineStatus
deriving DecidableEq

/-- ControlServiceImpl::create_pipeline (flywheel-ml-server
grpc/control_service.rs lines 42-78).  SHA-256 is external and passed in
as hash; Uuid::new_v4 and Utc::now are freshId and now.  Every repo error
is mapped to Status::internal by the handler. -/
def ControlServiceImpl.create_pipeline (hash : String → String)
    (db : List PipelineRow) (freshId : Nat) (now : Int)
    (req : CreatePipelineRequest) :
    Except StatusCode (CreatePipelineResponse × List PipelineRow) :=
  if req.name == "" then .error .InvalidArgument
  else
    let spec_hash := hash req.spec_yaml
    match PipelineRepo.create db freshId now req.name req.nspace spec_hash
        req.spec_yaml with
    | .error _ => .error .Internal
    | .ok (pipeline, dbNew) =>
        .ok ({ pipeline_id := pipeline.id, name := pipeline.name,
               status := pipeline.status }, dbNew)

/-! Feedback join transform
(crates/flywheel-ml-transform/src/feedback_transform.rs). -/

/-- FeedbackError variants used by the transform. -/
inductive FeedbackError where
  | PredictionNotFound (msg : String)
  | JoinFailed (msg : String)
deriving DecidableEq

/-- FeedbackJoinTransform configuration state (the database handle is
passed to process explicitly). -/
structure FeedbackJoinTransform where
  max_join_delay_secs : Int

/-- FeedbackJoinTransform::new (default max join delay 86400 s = 24 h). -/
def FeedbackJoinTransform.new : FeedbackJoinTransform :=
  { max_join_delay_secs := 86400 }

/-- Deserializing a JSON array of strings. -/
def parseStringList (j : Json) : Option (List String) :=
  match j with
  | .arr items => items.mapM Json.as_str
  | _ => none

/-- Deserializing a JSON array of numbers. -/
def parseRatList (j : Json) : Option (List Rat) :=
  match j with
  | .arr items => items.mapM Json.as_f64
  | _ => none

/-- Deserializing a signed integer (i32) from a JSON number. -/
def Json.as_i64 (j : Json) : Option Int :=
  match j with
  | .num q => if q.den == 1 then some q.num else none
  | _ => none

/-- Deserializing a JSON object of string-to-number entries. -/
def parseProbabilities (j : Json) : Option (List (String × Rat)) :=
  match j with
  | .obj fields => fields.mapM (fun kv => (kv.2.as_f64).map (fun v => (kv.1, v)))
  | _ => none

/-- serde_json::from_value for PredictionResult: the enum is internally
tagged with "type" in snake_case; contributing_features and
confidence_interval carry serde defaults. -/
def parsePredictionResult (j : Json) : Option PredictionResult :=
  match (j.get "type").bind Json.as_str with
  | some "anomaly" => do
      let score ← (j.get "score").bind Json.as_f64
      let is_anomaly ← (j.get "is_anomaly").bind Json.as_bool
      let threshold ← (j.get "threshold").bind Json.as_f64
      let contributing_features ←
        match j.get "contributing_features" with
        | none => some []
        | some v => parseStringList v
      some (.Anomaly score is_anomaly threshold contributing_features)
  | some "classification" => do
      let cls ← (j.get "class").bind Json.as_str
      let probabilities ← (j.get "probabilities").bind parseProbabilities
      some (.Classification cls probabilities)
  | some "regression" => do
      let value ← (j.get "value").bind Json.as_f64
      let confidence_interval ←
        match j.get "confidence_interval" with
        | none => some none
        | some .null => some none
        | some (.arr [a, b]) => do
            let lo ← a.as_f64
            let hi ← b.as_f64
            some (some (lo, hi))
        | some _ => none
      some (.Regression value confidence_interval)
  | some "clustering" => do
      let cluster_id ← (j.get "cluster_id").bind Json.as_i64
      let distance ← (j.get "distance").bind Json.as_f64
      some (.Clustering cluster_id distance)
  | some "embedding" => do
      let vector ← (j.get "vector").bind parseRatList
      some (.Embedding vector)
  | some "custom" => some (.Custom j)
  | _ => none

/-- extract_confidence (feedback_transform.rs lines 123-125). -/
def extract_confidence (prediction_json : Json) : Option Rat :=
  (prediction_json.get "confidence").bind Json.as_f64

/-- FeedbackJoinTransform::convert_to_stored_prediction (lines 92-121):
parses the prediction JSON, wraps the row, and sets ttl_seconds to None. -/
def FeedbackJoinTransform.convert_to_stored_prediction (model : PredictionRow) :
    Except FeedbackError StoredPrediction :=
  match parsePredictionResult model.prediction_json with
  | none => .error (.JoinFailed "Invalid prediction JSON")
  | some prediction_result =>
      .ok { prediction :=
              { prediction_id := toString model.id
                model_id := model.model_id
                model_version := model.model_version
                timestamp := model.created_at
                result := prediction_result
                confidence := extract_confidence model.prediction_json
                latency_us := 0
                features_hash := ""
                metadata := [] }
            features := model.features_json
            source_record_id := toString model.id
            stored_at := model.created_at
            ttl_seconds := none }

/-- FeedbackJoinTransform::process (feedback_transform.rs lines 27-79).
Looks up the prediction row (erroring with PredictionNotFound when it is
absent), converts it, skips expired predictions and feedback past the max
join delay, and otherwise builds a LabeledExample. -/
def FeedbackJoinTransform.process (t : FeedbackJoinTransform)
    (db : List PredictionRow) (now : Int) (freshId : String)
    (feedback : FeedbackRecord) : Except FeedbackError (Option LabeledExample) :=
  match PredictionRepo.find_by_id db feedback.prediction_id with
  | none => .error (.PredictionNotFound (toString feedback.prediction_id))
  | some prediction_model =>
      match FeedbackJoinTransform.convert_to_stored_prediction prediction_model with
      | .error e => .error e
      | .ok stored =>
          if stored.is_expired now then .ok none
          else
            let delay_secs := feedback.feedback_time - stored.prediction.timestamp
            if delay_secs > t.max_join_delay_secs then .ok none
            else .ok (some (.from_prediction_and_feedback freshId stored feedback))

/-! DSL manifest and validation (crates/flywheel-ml-dsl/src/types.rs
and validation.rs).  serde_json::from_value on a struct: required fields
must be present with the right shape, defaulted fields fall back when
missing, unknown fields are ignored. -/

/-- FlywheelStageType (types.rs lines 52-58). -/
inductive FlywheelStageType where
  | FeatureExtraction
  | MlInference
  | DriftDetection
  | FeedbackJoin
  | TrainingExport
deriving DecidableEq

/-- format with the Debug formatter, as used for MissingStageId. -/
def FlywheelStageType.debugRepr : FlywheelStageType → String
  | .FeatureExtraction => "FeatureExtraction"
  | .MlInference => "MlInference"
  | .DriftDetection => "DriftDetection"
  | .FeedbackJoin => "FeedbackJoin"
  | .TrainingExport => "TrainingExport"

/-- FlywheelStage: id, type, and a free-form JSON config (default null). -/
structure FlywheelStage where
  id : String
  stage_type : FlywheelStageType
  config : Json

/-- SinkSpec. -/
structure SinkSpec where
  name : String
  condition : Option String
  all : Bool

/-- ObjectMeta (namespace and annotations renamed for Lean). -/
structure ObjectMeta where
  name : String
  nspace : Option String
  labels : List (String × String)
  annots : List (String × String)

/-- FeedbackSpec of the manifest (types.rs lines 200-208). -/
structure FeedbackSpec where
  source : String
  join_key : String
  max_delay_hours : Nat
  labels : List (String × String × Rat)

/-- ExportFormat (types.rs lines 237-245). -/
inductive ExportFormat where
  | Parquet
  | TfRecord
  | Csv
  | JsonLines
deriving DecidableEq

/-- SamplingSpec (types.rs lines 247-253), tagged with "strategy". -/
inductive SamplingSpec where
  | All
  | Random (rate : Rat)
  | Stratified (positive_rate negative_rate : Rat)

/-- TrainingExportSpec (types.rs lines 226-235). -/
structure TrainingExportSpec where
  destination_uri : String
  format : ExportFormat
  partition_by : List String
  sampling : SamplingSpec

/-- FlywheelPipelineSpec (types.rs lines 24-35). -/
structure FlywheelPipelineSpec where
  source : String
  stages : List FlywheelStage
  feedback : Option FeedbackSpec
  training_export : Option TrainingExportSpec
  sinks : List SinkSpec
  enabled : Bool

/-- FlywheelPipelineManifest (types.rs lines 5-12). -/
structure FlywheelPipelineManifest where
  api_version : String
  kind : String
  metadata : ObjectMeta
  spec : FlywheelPipelineSpec

/-- FeatureTransformSpec (types.rs lines 94-102). -/
inductive FeatureTransformSpec where
  | Normalize (min max : Rat)
  | Log1p
  | Clip (min max : Rat)
  | Bucketize (boundaries : List Rat)
  | OneHot (categories : List String)

/-- FeatureDef (types.rs lines 86-92). -/
structure FeatureDef where
  name : String
  source_field : String
  transform : Option FeatureTransformSpec

/-- FeatureExtractionConfig (types.rs lines 79-84). -/
structure FeatureExtractionConfig where
  features : List FeatureDef
  include_raw : Bool

/-- FallbackStrategy (types.rs lines 126-134). -/
inductive FallbackStrategy where
  | Passthrough
  | ReturnNull
  | UseDefault (value : Json)
  | Error

/-- MlInferenceConfig (types.rs lines 104-116). -/
structure MlInferenceConfig where
  model_endpoint : String
  model_id : String
  input_features : List String
  output_field : String
  timeout_ms : Nat
  batch_size : Nat
  fallback : FallbackStrategy

/-- DriftMode (types.rs lines 158-164). -/
inductive DriftMode where
  | Shadow
  | Blocking
deriving DecidableEq

/-- DriftThresholds (types.rs lines 166-172); psi defaults to 0.25 and
kl_divergence to 0.1. -/
structure DriftThresholds where
  psi : Rat
  kl_divergence : Rat
deriving DecidableEq

/-- DriftAction (types.rs lines 191-198). -/
inductive DriftAction where
  | Alert
  | Retrain
  | Fallback (to_model : String)

/-- DriftDetectionConfig (types.rs lines 136-148). -/
structure DriftDetectionConfig where
  mode : DriftMode
  baseline_uri : String
  window_size : Nat
  check_interval_secs : Nat
  thresholds : DriftThresholds
  on_drift : DriftAction

/-- Parse a field that carries a serde default: missing falls back,
present values must deserialize. -/
def fieldWithDefault {α : Type} (j : Json) (key : String) (dflt : α)
    (p : Json → Option α) : Option α :=
  match j.get key with
  | none => some dflt
  | some v => p v

/-- serde for Option fields with a default: missing or null is None. -/
def optionField {α : Type} (j : Json) (key : String) (p : Json → Option α) :
    Option (Option α) :=
  match j.get key with
  | none => some none
  | some .null => some none
  | some v => (p v).map some

/-- serde for FeatureTransformSpec: externally tagged, snake_case; struct
variants are single-key objects, and Log1p (an empty struct variant)
requires an object payload. -/
def parseFeatureTransformSpec (j : Json) : Option FeatureTransformSpec :=
  match j with
  | .obj [("normalize", v)] => do
      let lo ← (v.get "min").bind Json.as_f64
      let hi ← (v.get "max").bind Json.as_f64
      some (.Normalize lo hi)
  | .obj [("log1p", .obj _)] => some .Log1p
  | .obj [("clip", v)] => do
      let lo ← (v.get "min").bind Json.as_f64
      let hi ← (v.get "max").bind Json.as_f64
      some (.Clip lo hi)
  | .obj [("bucketize", v)] => do
      let boundaries ← (v.get "boundaries").bind parseRatList
      some (.Bucketize boundaries)
  | .obj [("one_hot", v)] => do
      let categories ← (v.get "categories").bind parseStringList
      some (.OneHot categories)
  | _ => none

/-- serde for FeatureDef: name and source_field required strings,
transform optional with default None. -/
def parseFeatureDef (j : Json) : Option FeatureDef :=
  match j with
  | .obj _ => do
      let name ← (j.get "name").bind Json.as_str
      let source_field ← (j.get "source_field").bind Json.as_str
      let transform ← optionField j "transform" parseFeatureTransformSpec
      some { name := name, source_field := source_field, transform := transform }
  | _ => none

/-- serde for FeatureExtractionConfig: features is a required array of
FeatureDef; include_raw defaults to false. -/
def parseFeatureExtractionConfig (j : Json) : Option FeatureExtractionConfig :=
  match j with
  | .obj _ => do
      let features ←
        match j.get "features" with
        | some (.arr items) => items.mapM parseFeatureDef
        | _ => none
      let include_raw ← fieldWithDefault j "include_raw" false Json.as_bool
      some { features := features, include_raw := include_raw }
  | _ => none

/-- serde for FallbackStrategy: externally tagged; unit variants are
strings, UseDefault is a single-key object carrying any value. -/
def parseFallbackStrategy (j : Json) : Option FallbackStrategy :=
  match j with
  | .str "passthrough" => some .Passthrough
  | .str "return_null" => some .ReturnNull
  | .str "error" => some .Error
  | .obj [("use_default", v)] => some (.UseDefault v)
  | _ => none

/-- serde for MlInferenceConfig: endpoint, model id, input features and
output field required; timeout_ms defaults to 1000, batch_size to 32 and
fallback to Passthrough. -/
def parseMlInferenceConfig (j : Json) : Option MlInferenceConfig :=
  match j with
  | .obj _ => do
      let model_endpoint ← (j.get "model_endpoint").bind Json.as_str
      let model_id ← (j.get "model_id").bind Json.as_str
      let input_features ← (j.get "input_features").bind parseStringList
      let output_field ← (j.get "output_field").bind Json.as_str
      let timeout_ms ← fieldWithDefault j "timeout_ms" 1000 Json.as_u64
      let batch_size ← fieldWithDefault j "batch_size" 32 Json.as_u64
      let fallback ← fieldWithDefault j "fallback" .Passthrough parseFallbackStrategy
      some { model_endpoint := model_endpoint, model_id := model_id,
             input_features := input_features, output_field := output_field,
             timeout_ms := timeout_ms, batch_size := batch_size,
             fallback := fallback }
  | _ => none

/-- serde for DriftMode: snake_case unit variants. -/
def parseDriftMode (j : Json) : Option DriftMode :=
  match j with
  | .str "shadow" => some .Shadow
  | .str "blocking" => some .Blocking
  | _ => none

/-- serde for DriftThresholds: psi defaults to 0.25, kl_divergence to 0.1. -/
def parseDriftThresholds (j : Json) : Option DriftThresholds :=
  match j with
  | .obj _ => do
      let psi ← fieldWithDefault j "psi" (1/4) Json.as_f64
      let kl ← fieldWithDefault j "kl_divergence" (1/10) Json.as_f64
      some { psi := psi, kl_divergence := kl }
  | _ => none

/-- serde for DriftAction: unit variants as strings, Fallback a
single-key object with to_model. -/
def parseDriftAction (j : Json) : Option DriftAction :=
  match j with
  | .str "alert" => some .Alert
  | .str "retrain" => some .Retrain
  | .obj [("fallback", v)] => do
      let to_model ← (v.get "to_model").bind Json.as_str
      some (.Fallback to_model)
  | _ => none

/-- serde for DriftDetectionConfig: baseline_uri and thresholds required;
mode, window_size, check_interval_secs, on_drift defaulted. -/
def parseDriftDetectionConfig (j : Json) : Option DriftDetectionConfig :=
  match j with
  | .obj _ => do
      let mode ← fieldWithDefault j "mode" .Shadow parseDriftMode
      let baseline_uri ← (j.get "baseline_uri").bind Json.as_str
      let window_size ← fieldWithDefault j "window_size" 10000 Json.as_u64
      let check_interval_secs ← fieldWithDefault j "check_interval_secs" 300 Json.as_u64
      let thresholds ← (j.get "thresholds").bind parseDriftThresholds
      let on_drift ← fieldWithDefault j "on_drift" .Alert parseDriftAction
      some { mode := mode, baseline_uri := baseline_uri,
             window_size := window_size,
             check_interval_secs := check_interval_secs,
             thresholds := thresholds, on_drift := on_drift }
  | _ => none

/-- serde for ExportFormat: snake_case unit variants. -/
def parseExportFormat (j : Json) : Option ExportFormat :=
  match j with
  | .str "parquet" => some .Parquet
  | .str "tf_record" => some .TfRecord
  | .str "csv" => some .Csv
  | .str "json_lines" => some .JsonLines
  | _ => none

/-- serde for SamplingSpec: internally tagged with "strategy". -/
def parseSamplingSpec (j : Json) : Option SamplingSpec :=
  match (j.get "strategy").bind Json.as_str with
  | some "all" => some .All
  | some "random" => do
      let rate ← (j.get "rate").bind Json.as_f64
      some (.Random rate)
  | some "stratified" => do
      let positive_rate ← (j.get "positive_rate").bind Json.as_f64
      let negative_rate ← (j.get "negative_rate").bind Json.as_f64
      some (.Stratified positive_rate negative_rate)
  | _ => none

/-- serde for TrainingExportSpec: destination_uri required; format,
partition_by, sampling defaulted. -/
def parseTrainingExportSpec (j : Json) : Option TrainingExportSpec :=
  match j with
  | .obj _ => do
      let destination_uri ← (j.get "destination_uri").bind Json.as_str
      let format ← fieldWithDefault j "format" .Parquet parseExportFormat
      let partition_by ← fieldWithDefault j "partition_by" [] parseStringList
      let sampling ← fieldWithDefault j "sampling" .All parseSamplingSpec
      some { destination_uri := destination_uri, format := format,
             partition_by := partition_by, sampling := sampling }
  | _ => none

/-- ValidationError (validation.rs lines 4-22). -/
inductive ValidationError where
  | EmptyName
  | NoStages
  | NoSinks
  | MissingStageId (which : String)
  | DuplicateStageId (id : String)
  | InvalidFeatureExtraction (msg : String)
  | InvalidMlInference (msg : String)
  | InvalidDriftDetection (msg : String)
deriving DecidableEq

/-- validate_stage (validation.rs lines 59-86): only the three config
types with schemas are checked; FeedbackJoin and TrainingExport fall into
the wildcard arm and pass.  The serde error text is not modelled. -/
def validate_stage (stage : FlywheelStage) : Except ValidationError Unit :=
  match stage.stage_type with
  | .FeatureExtraction =>
      match parseFeatureExtractionConfig stage.config with
      | none => .error (.InvalidFeatureExtraction "")
      | some _ => .ok ()
  | .MlInference =>
      match parseMlInferenceConfig stage.config with
      | none => .error (.InvalidMlInference "")
      | some _ => .ok ()
  | .DriftDetection =>
      match parseDriftDetectionConfig stage.config with
      | none => .error (.InvalidDriftDetection "")
      | some _ => .ok ()
  | _ => .ok ()

/-- The stage loop of validate_spec (validation.rs lines 43-54), with the
HashSet of seen ids as an accumulator: empty ids, duplicate ids, and
per-stage config errors abort in order. -/
def validateStagesLoop (stages : List FlywheelStage) (seen : List String) :
    Except ValidationError Unit :=
  match stages with
  | [] => .ok ()
  | stage :: rest =>
      if stage.id == "" then
        .error (.MissingStageId stage.stage_type.debugRepr)
      else if seen.contains stage.id then
        .error (.DuplicateStageId stage.id)
      else
        match validate_stage stage with
        | .error e => .error e
        | .ok () => validateStagesLoop rest (stage.id :: seen)

/-- validate_spec (validation.rs lines 34-57). -/
def validate_spec (spec : FlywheelPipelineSpec) : Except ValidationError Unit :=
  if spec.stages.isEmpty then .error .NoStages
  else if spec.sinks.isEmpty then .error .NoSinks
  else validateStagesLoop spec.stages []

/-- validate_manifest (validation.rs lines 24-32). -/
def validate_manifest (manifest : FlywheelPipelineManifest) :
    Except ValidationError Unit :=
  if manifest.metadata.name == "" then .error .EmptyName
  else validate_spec manifest.spec

/-! Concrete inputs used by the theorems -/

/-- Discrete uniform sample on [0,1): i/100 for i < 100, the pattern of
the repo test test_psi_with_drift at the minimum admissible size 100. -/
def refSample : List Rat := (List.range 100).map (fun i => (i : Rat) / 100)

/-- The reference shifted by one half: discrete uniform on [0.5, 1.5). -/
def curSample : List Rat := refSample.map (fun v => v + 1/2)

/-- The drift detector of spec scenario 4: default config, reference set
to the uniform sample, window filled with the shifted sample. -/
def shiftDetector : DriftDetector :=
  ((DriftDetector.new DriftConfig.default).set_reference refSample).addValues curSample

/-- The correctness table exactly as claim C6 words it, written
independently of compute_correctness for comparison. -/
def correctnessTable (prediction : PredictionResult)
    (ground_truth : GroundTruth) : Option Bool :=
  match prediction, ground_truth with
  | .Anomaly _ a _ _, .Binary t => some (a == t)
  | .Anomaly _ a _ _, .Label l =>
      some (a == decide (toLowercase l = "anomaly" ∨ toLowercase l = "true" ∨
                         toLowercase l = "yes" ∨ toLowercase l = "1" ∨
                         toLowercase l = "positive"))
  | .Classification c _, .Label l => some (eqIgnoreAsciiCase c l)
  | .Regression v _, .Value t => some (decide (|v - t| ≤ 1/10 * |t|))
  | _, _ => none

/-- A concrete rational stand-in for a logarithm: strictly monotone on
the positive rationals and zero at one, used to instantiate theorems that
are parametric in the ln function. -/
def lnWitness (x : Rat) : Rat := x - 1/x

/-- A concrete labeled example for sampler witnesses. -/
def exampleA : LabeledExample :=
  { example_id := "ex-a", prediction_id := "p-1", model_id := "m",
    model_version := "v1", features := .obj [("cpu", .num (85/100))],
    prediction := .obj [("score", .num (9/10))],
    ground_truth := .Binary true, prediction_timestamp := 0,
    feedback_timestamp := 10, delay_ms := 10000, feedback_confidence := 1,
    is_correct := some true, metadata := [] }

/-- A second concrete labeled example. -/
def exampleB : LabeledExample :=
  { exampleA with example_id := "ex-b", ground_truth := .Binary false }

/-- A third concrete labeled example. -/
def exampleC : LabeledExample :=
  { exampleA with example_id := "ex-c" }

/-- A stored prediction row whose JSON parses to an anomaly result. -/
def anomalyRow : PredictionRow :=
  { id := 1, pipeline_id := 0, model_id := "m", model_version := "v1",
    features_json := .obj [("cpu", .num (85/100))],
    prediction_json := .obj [("type", .str "anomaly"), ("score", .num (9/10)),
                             ("is_anomaly", .bool true), ("threshold", .num (7/10))],
    created_at := 0, feedback_id := none }

/-- The stored prediction obtained by converting anomalyRow. -/
def anomalyStored : StoredPrediction :=
  { prediction :=
      { prediction_id := "1", model_id := "m", model_version := "v1",
        timestamp := 0, result := .Anomaly (9/10) true (7/10) [],
        confidence := none, latency_us := 0, features_hash := "", metadata := [] }
    features := .obj [("cpu", .num (85/100))]
    source_record_id := "1", stored_at := 0, ttl_seconds := none }

/-- A feedback record referencing prediction 1 shortly after it. -/
def feedbackOnTime : FeedbackRecord :=
  { feedback_id := "f-1", prediction_id := 1, model_id := "m",
    ground_truth := .Binary true, feedback_time := 100, delay_ms := 100000,
    source := .Explicit "u" "confirm", metadata := [] }

/-- The same feedback arriving 30 hours after the prediction. -/
def feedbackLate : FeedbackRecord :=
  { feedbackOnTime with feedback_time := 108000 }

/-- A prediction row already linked to feedback 7. -/
def linkedRow : PredictionRow :=
  { anomalyRow with feedback_id := some 7 }

/-- The pipeline row created by the first p1/default create call. -/
def p1Row : PipelineRow :=
  { id := 1, name := "p1", nspace := "default", spec_hash := "", spec_yaml := "spec",
    status := .Pending, conveyor_pipeline_id := none, created_at := 0, updated_at := 0 }

/-- A pipelines table holding one row named p1 in namespace default. -/
def pipelinesAfterCreate : List PipelineRow := [p1Row]

/-- A create request for the same (name, namespace) pair. -/
def dupRequest : CreatePipelineRequest :=
  { name := "p1", nspace := "default", spec_yaml := "spec" }

/-- The per-stage config check that validation actually enforces: a
schema parse only for the three stage types carrying schemas in the DSL,
everything else accepted. -/
def stageConfigOk (stage : FlywheelStage) : Bool :=
  match stage.stage_type with
  | .FeatureExtraction => (parseFeatureExtractionConfig stage.config).isSome
  | .MlInference => (parseMlInferenceConfig stage.config).isSome
  | .DriftDetection => (parseDriftDetectionConfig stage.config).isSome
  | _ => true

/-- A manifest whose single training-export stage carries the config 5,
a JSON value that parses against none of the stage config schemas. -/
def junkExportManifest : FlywheelPipelineManifest :=
  { api_version := "flywheel-ml.io/v1", kind := "FlywheelPipeline",
    metadata := { name := "p", nspace := none, labels := [], annots := [] },
    spec := { source := "events", stages := [{ id := "s1", stage_type := .TrainingExport, config := .num 5 }],
              feedback := none, training_export := none,
              sinks := [{ name := "out", condition := none, all := true }],
              enabled := true } }

/-! Theorems about the claims -/

set_option maxRecDepth 100000

attribute [local semireducible] Rat.add Rat.mul Rat.inv Rat.sub

/-- Claim C6: for every (prediction result, ground truth) pair,
compute_correctness agrees with the correctness table of the spec:
Anomaly vs Binary compares is_anomaly with the truth; Anomaly vs Label
treats anomaly, true, yes, 1 and positive (lowercased) as positive;
Classification vs Label compares case-insensitively; Regression vs Value
checks the difference against one tenth of the truth magnitude; every
other combination yields None. -/
theorem C6_correctness_matches_table (prediction : PredictionResult)
    (ground_truth : GroundTruth) :
    LabeledExample.compute_correctness prediction ground_truth =
      correctnessTable prediction ground_truth := by
  cases prediction <;> cases ground_truth <;>
    simp only [LabeledExample.compute_correctness, correctnessTable]
  · congr 2
    exact decide_eq_decide.mpr (by simp)
  · rw [mul_comm]

/-- Claim C10: with a ReservoirSampling configuration, sample_one returns
None and absorbs the example into the internal reservoir, from which
drain_reservoir later returns it; under every other configuration it
returns Some(example) exactly when should_sample accepts the example. -/
theorem C10_sample_one_reservoir_absorbs (config : SamplingConfig)
    (ex : LabeledExample) (u : Rat) (rng : Nat → Nat) :
    ((Sampler.new config).sample_one ex u rng).1 =
      (match config with
       | .ReservoirSampling _ => none
       | _ => if (Sampler.new config).should_sample ex u then some ex else none) ∧
    ((Sampler.new config).sample_one ex u rng).2.reservoir =
      (match config with
       | .ReservoirSampling size => some ((ReservoirSampler.new size).add ex rng)
       | _ => none) ∧
    (((Sampler.new config).sample_one ex u rng).2.drain_reservoir).1 =
      (match config with
       | .ReservoirSampling size => ((ReservoirSampler.new size).add ex rng).reservoir
       | _ => []) := by
  cases config <;>
    simp only [Sampler.new, Sampler.sample_one, Sampler.drain_reservoir,
               ReservoirSampler.get_sample] <;>
    try (split <;> simp)
  all_goals simp

/-- ReservoirSampler::add when the reservoir is not yet full: the example
is appended and no random draw is consumed. -/
theorem reservoir_add_fill (s : ReservoirSampler) (x : LabeledExample)
    (rng : Nat → Nat) (h : s.reservoir.length < s.size) :
    s.add x rng = { s with count := s.count + 1, reservoir := s.reservoir ++ [x] } := by
  unfold ReservoirSampler.add
  rw [if_pos h]

/-- ReservoirSampler::add on a full reservoir: with k = count + 1 the
draw j = rng k replaces slot j exactly when j < size. -/
theorem reservoir_add_full (s : ReservoirSampler) (x : LabeledExample)
    (rng : Nat → Nat) (h : ¬ s.reservoir.length < s.size) :
    s.add x rng =
      (if rng (s.count + 1) < s.size then
        { s with count := s.count + 1, reservoir := s.reservoir.set (rng (s.count + 1)) x }
      else
        { s with count := s.count + 1 }) := by
  unfold ReservoirSampler.add
  rw [if_neg h]

/-- A single add changes the reservoir length only during the fill phase. -/
theorem reservoir_add_length (s : ReservoirSampler) (x : LabeledExample)
    (rng : Nat → Nat) :
    (s.add x rng).reservoir.length =
      (if s.reservoir.length < s.size then s.reservoir.length + 1
       else s.reservoir.length) := by
  unfold ReservoirSampler.add
  by_cases h : s.reservoir.length < s.size
  · rw [if_pos h, if_pos h]
    simp
  · rw [if_neg h, if_neg h]
    by_cases hj : rng (s.count + 1) < s.size
    · rw [if_pos hj]
      simp
    · rw [if_neg hj]

/-- While capacity remains, addMany appends the examples in order. -/
theorem addMany_fill (xs : List LabeledExample) : ∀ (s : ReservoirSampler)
    (rng : Nat → Nat), s.reservoir.length + xs.length ≤ s.size →
    s.addMany xs rng = { s with count := s.count + xs.length,
                                reservoir := s.reservoir ++ xs } := by
  induction xs with
  | nil =>
      intro s rng _
      simp [ReservoirSampler.addMany]
  | cons x rest ih =>
      intro s rng h
      have hlen : (x :: rest).length = rest.length + 1 := rfl
      have hlt : s.reservoir.length < s.size := by omega
      have hstep := reservoir_add_fill s x rng hlt
      have hrec : s.addMany (x :: rest) rng = (s.add x rng).addMany rest rng := rfl
      rw [hrec, hstep]
      have hlen2 : (s.reservoir ++ [x]).length = s.reservoir.length + 1 := by simp
      have h2 : (s.reservoir ++ [x]).length + rest.length ≤ s.size := by omega
      rw [ih _ rng h2]
      simp only [ReservoirSampler.mk.injEq, List.append_assoc, List.singleton_append,
                 List.length_cons, true_and]
      omega

/-- The reservoir length after addMany is the minimum of the candidate
count and the capacity, provided it starts within capacity. -/
theorem addMany_length (xs : List LabeledExample) : ∀ (s : ReservoirSampler)
    (rng : Nat → Nat), s.reservoir.length ≤ s.size →
    (s.addMany xs rng).reservoir.length = min (s.reservoir.length + xs.length) s.size := by
  induction xs with
  | nil =>
      intro s rng h
      simp [ReservoirSampler.addMany]
      omega
  | cons x rest ih =>
      intro s rng h
      have hadd := reservoir_add_length s x rng
      have hsize : (s.add x rng).size = s.size := by
        unfold ReservoirSampler.add
        split
        · rfl
        · dsimp only
          split <;> rfl
      have hle : (s.add x rng).reservoir.length ≤ (s.add x rng).size := by
        rw [hadd, hsize]
        split <;> omega
      have := ih (s.add x rng) rng hle
      calc (s.addMany (x :: rest) rng).reservoir.length
        = ((s.add x rng).addMany rest rng).reservoir.length := rfl
    _ = min ((s.add x rng).reservoir.length + rest.length) (s.add x rng).size := this
    _ = min (s.reservoir.length + (x :: rest).length) s.size := by
          rw [hadd, hsize]
          split <;> simp <;> omega

/-- Claim C9: the reservoir sampler of capacity K implements algorithm R:
the first K additions fill the reservoir in order; an addition to a full
reservoir is the k-th arrival (count k after increment), draws j = rng k,
and replaces slot j exactly when j < K; after N greater-or-equal K
additions the reservoir holds exactly K items; and drain_reservoir on a
full sampler returns the snapshot and resets to an empty reservoir of the
same size. -/
theorem C9_reservoir_algorithm_r (K : Nat) :
    (∀ (xs : List LabeledExample) (rng : Nat → Nat), xs.length ≤ K →
       (ReservoirSampler.new K).addMany xs rng =
         { size := K, reservoir := xs, count := xs.length }) ∧
    (∀ (s : ReservoirSampler) (x : LabeledExample) (rng : Nat → Nat),
       ¬ s.reservoir.length < s.size →
       s.add x rng =
         (if rng (s.count + 1) < s.size then
           { s with count := s.count + 1,
                    reservoir := s.reservoir.set (rng (s.count + 1)) x }
         else
           { s with count := s.count + 1 })) ∧
    (∀ (xs : List LabeledExample) (rng : Nat → Nat), K ≤ xs.length →
       ((ReservoirSampler.new K).addMany xs rng).reservoir.length = K) ∧
    (∀ (smp : Sampler) (r : ReservoirSampler), smp.reservoir = some r →
       r.reservoir.length = r.size →
       smp.drain_reservoir =
         (r.reservoir, { smp with reservoir := some (ReservoirSampler.new r.size) })) := by
  refine ⟨?_, ?_, ?_, ?_⟩
  · intro xs rng h
    have := addMany_fill xs (ReservoirSampler.new K) rng (by simp [ReservoirSampler.new]; omega)
    rw [this]
    simp [ReservoirSampler.new]
  · intro s x rng h
    exact reservoir_add_full s x rng h
  · intro xs rng h
    have := addMany_length xs (ReservoirSampler.new K) rng (by simp [ReservoirSampler.new])
    rw [this]
    simp [ReservoirSampler.new]
    omega
  · intro smp r hres hfull
    unfold Sampler.drain_reservoir
    rw [hres]
    simp [ReservoirSampler.get_sample, hfull]

/-- Witness for C9 at capacity 2 with three sequential additions. -/
theorem C9_reservoir_algorithm_r_witness :
    ((ReservoirSampler.new 2).addMany [exampleA, exampleB] (fun k => k - 1) =
       { size := 2, reservoir := [exampleA, exampleB], count := 2 }) ∧
    (((ReservoirSampler.new 2).addMany [exampleA, exampleB, exampleC]
        (fun k => k - 1)).reservoir.length = 2) ∧
    (Sampler.drain_reservoir
       { config := .ReservoirSampling 2,
         reservoir := some { size := 2, reservoir := [exampleA, exampleB], count := 5 } } =
       ([exampleA, exampleB],
        { config := .ReservoirSampling 2, reservoir := some (ReservoirSampler.new 2) })) :=
  ⟨(C9_reservoir_algorithm_r 2).1 [exampleA, exampleB] (fun k => k - 1) (by decide),
   (C9_reservoir_algorithm_r 2).2.2.1 [exampleA, exampleB, exampleC] (fun k => k - 1) (by decide),
   (C9_reservoir_algorithm_r 2).2.2.2 _ _ rfl rfl⟩

/-- record_failure in Closed below the threshold only increments the
failure counter. -/
theorem record_failure_closed_lt (cb : CircuitBreaker) (now : Int)
    (h : cb.state = .Closed) (hlt : cb.failure_count + 1 < cb.config.failure_threshold) :
    cb.record_failure now = { cb with failure_count := cb.failure_count + 1 } := by
  unfold CircuitBreaker.record_failure
  rw [h]
  dsimp only
  rw [if_neg (by omega)]

/-- record_failure in Closed reaching the threshold trips the breaker and
records the failure instant. -/
theorem record_failure_closed_ge (cb : CircuitBreaker) (now : Int)
    (h : cb.state = .Closed) (hge : cb.config.failure_threshold ≤ cb.failure_count + 1) :
    cb.record_failure now = { cb with failure_count := cb.failure_count + 1,
                                      state := .Open, last_failure_time := some now } := by
  unfold CircuitBreaker.record_failure
  rw [h]
  dsimp only
  rw [if_pos (by omega)]

/-- Consecutive failures short of the threshold leave the breaker Closed,
only accumulating the counter. -/
theorem failMany_stays_closed (ts : List Int) : ∀ (cb : CircuitBreaker),
    cb.state = .Closed → cb.failure_count + ts.length < cb.config.failure_threshold →
    cb.failMany ts = { cb with failure_count := cb.failure_count + ts.length } := by
  induction ts with
  | nil =>
      intro cb h _
      simp [CircuitBreaker.failMany]
  | cons t rest ih =>
      intro cb h hlt
      have hlen : (t :: rest).length = rest.length + 1 := rfl
      have hstep := record_failure_closed_lt cb t h (by omega)
      have hrec : cb.failMany (t :: rest) = (cb.record_failure t).failMany rest := rfl
      rw [hrec, hstep]
      rw [ih { cb with failure_count := cb.failure_count + 1 } h
        (by show cb.failure_count + 1 + rest.length < cb.config.failure_threshold; omega)]
      simp only [CircuitBreaker.mk.injEq, true_and, and_true]
      omega

/-- record_success in HalfOpen below the success threshold only
increments the success counter. -/
theorem record_success_halfopen_lt (cb : CircuitBreaker)
    (h : cb.state = .HalfOpen) (hlt : cb.success_count + 1 < cb.config.success_threshold) :
    cb.record_success = { cb with success_count := cb.success_count + 1 } := by
  unfold CircuitBreaker.record_success
  rw [h]
  dsimp only
  rw [if_neg (by omega)]

/-- record_success in HalfOpen reaching the success threshold closes the
breaker and zeroes the failure counter. -/
theorem record_success_halfopen_ge (cb : CircuitBreaker)
    (h : cb.state = .HalfOpen) (hge : cb.config.success_threshold ≤ cb.success_count + 1) :
    cb.record_success = { cb with success_count := cb.success_count + 1,
                                  state := .Closed, failure_count := 0 } := by
  unfold CircuitBreaker.record_success
  rw [h]
  dsimp only
  rw [if_pos (by omega)]

/-- Consecutive successes short of the threshold leave the breaker
HalfOpen, only accumulating the counter. -/
theorem succMany_stays_halfopen (n : Nat) : ∀ (cb : CircuitBreaker),
    cb.state = .HalfOpen → cb.success_count + n < cb.config.success_threshold →
    cb.succMany n = { cb with success_count := cb.success_count + n } := by
  induction n with
  | zero =>
      intro cb h _
      simp [CircuitBreaker.succMany]
  | succ m ih =>
      intro cb h hlt
      have hstep := record_success_halfopen_lt cb h (by omega)
      have hrec : cb.succMany (m + 1) = cb.record_success.succMany m := rfl
      rw [hrec, hstep]
      rw [ih { cb with success_count := cb.success_count + 1 } h
        (by show cb.success_count + 1 + m < cb.config.success_threshold; omega)]
      simp only [CircuitBreaker.mk.injEq, true_and, and_true]
      omega

/-- Splitting a success run. -/
theorem succMany_add (m n : Nat) : ∀ (cb : CircuitBreaker),
    cb.succMany (m + n) = (cb.succMany m).succMany n := by
  induction m with
  | zero => intro cb; rw [Nat.zero_add]; rfl
  | succ k ih =>
      intro cb
      have h1 : cb.succMany (k + 1 + n) = cb.record_success.succMany (k + n) := by
        have : k + 1 + n = (k + n) + 1 := by omega
        rw [this]
        rfl
      rw [h1, ih]
      rfl

/-- Claim C5: the circuit breaker state machine.  A fresh breaker is
Closed with zeroed counters.  Fewer than failure_threshold consecutive
failures leave it Closed; the failure_threshold-th failure opens it and
records that failure instant.  While Open, can_execute is false until
reset_timeout has elapsed since the recorded instant, and the first call
after elapse moves to HalfOpen, zeroes the success counter and returns
true.  In HalfOpen, success_threshold consecutive successes close the
breaker and reset failure_count to 0, while any failure reopens it.  In
Closed, record_success resets failure_count to 0. -/
theorem C5_circuit_breaker_state_machine (cfg : CircuitBreakerConfig) :
    ((CircuitBreaker.new cfg).state = .Closed ∧
     (CircuitBreaker.new cfg).failure_count = 0 ∧
     (CircuitBreaker.new cfg).success_count = 0) ∧
    (∀ ts : List Int, ts.length < cfg.failure_threshold →
       ((CircuitBreaker.new cfg).failMany ts).state = .Closed) ∧
    (∀ (init : List Int) (t : Int), init.length + 1 = cfg.failure_threshold →
       (CircuitBreaker.new cfg).failMany (init ++ [t]) =
         { CircuitBreaker.new cfg with state := .Open,
                                       failure_count := cfg.failure_threshold,
                                       last_failure_time := some t }) ∧
    (∀ (cb : CircuitBreaker) (t now : Int), cb.state = .Open →
       cb.last_failure_time = some t →
       (now - t ≤ cb.config.reset_timeout → cb.can_execute now = (false, cb)) ∧
       (now - t > cb.config.reset_timeout →
          cb.can_execute now = (true, { cb with state := .HalfOpen, success_count := 0 }))) ∧
    (∀ (cb : CircuitBreaker), cb.state = .HalfOpen → cb.success_count = 0 →
       1 ≤ cb.config.success_threshold →
       (cb.succMany cb.config.success_threshold).state = .Closed ∧
       (cb.succMany cb.config.success_threshold).failure_count = 0) ∧
    (∀ (cb : CircuitBreaker) (now : Int), cb.state = .HalfOpen →
       cb.record_failure now = { cb with state := .Open, last_failure_time := some now }) ∧
    (∀ (cb : CircuitBreaker), cb.state = .Closed →
       cb.record_success = { cb with failure_count := 0 }) := by
  refine ⟨⟨rfl, rfl, rfl⟩, ?_, ?_, ?_, ?_, ?_, ?_⟩
  · intro ts hlen
    rw [failMany_stays_closed ts (CircuitBreaker.new cfg) rfl
      (by show 0 + ts.length < cfg.failure_threshold; omega)]
    rfl
  · intro init t hlen
    have hrun := failMany_stays_closed init (CircuitBreaker.new cfg) rfl
      (by show 0 + init.length < cfg.failure_threshold; omega)
    have hsplit : (CircuitBreaker.new cfg).failMany (init ++ [t]) =
        ((CircuitBreaker.new cfg).failMany init).record_failure t := by
      unfold CircuitBreaker.failMany
      rw [List.foldl_append]
      rfl
    rw [hsplit, hrun]
    rw [record_failure_closed_ge _ _ rfl
      (by show cfg.failure_threshold <= 0 + init.length + 1; omega)]
    simp only [CircuitBreaker.mk.injEq, CircuitBreaker.new, true_and, and_true]
    omega
  · intro cb t now hopen hinst
    constructor
    · intro hle
      unfold CircuitBreaker.can_execute
      rw [hopen, hinst]
      dsimp only
      rw [if_neg (by omega)]
    · intro hgt
      unfold CircuitBreaker.can_execute
      rw [hopen, hinst]
      dsimp only
      rw [if_pos (by omega)]
  · intro cb hhalf hzero hone
    have hsplit : cb.config.success_threshold = (cb.config.success_threshold - 1) + 1 := by
      omega
    rw [hsplit, succMany_add]
    have hrun := succMany_stays_halfopen (cb.config.success_threshold - 1) cb hhalf (by omega)
    
    rw [hrun]
    have hlast := record_success_halfopen_ge
      { cb with success_count := cb.success_count + (cb.config.success_threshold - 1) }
      hhalf
      (by show cb.config.success_threshold ≤ cb.success_count + (cb.config.success_threshold - 1) + 1
          omega)
    have hone2 : ({ cb with success_count := cb.success_count + (cb.config.success_threshold - 1) } : CircuitBreaker).succMany 1 =
        ({ cb with success_count := cb.success_count + (cb.config.success_threshold - 1) } : CircuitBreaker).record_success := rfl
    rw [hone2, hlast]
    exact ⟨rfl, rfl⟩
  · intro cb now hhalf
    unfold CircuitBreaker.record_failure
    rw [hhalf]
  · intro cb hclosed
    unfold CircuitBreaker.record_success
    rw [hclosed]

/-- Witness for C5 with thresholds failure 2, success 2 and reset
timeout 5, exercising every clause at concrete instants. -/
theorem C5_circuit_breaker_state_machine_witness :
    (((CircuitBreaker.new ⟨2, 2, 3, 5⟩).failMany [0]).state = .Closed) ∧
    ((CircuitBreaker.new ⟨2, 2, 3, 5⟩).failMany ([0] ++ [1]) =
       { (CircuitBreaker.new ⟨2, 2, 3, 5⟩) with
           state := .Open,
           failure_count := 2,
           last_failure_time := some 1 }) ∧
    (CircuitBreaker.can_execute
       { state := .Open, failure_count := 2, success_count := 0,
         last_failure_time := some 1, config := ⟨2, 2, 3, 5⟩ } 4 =
       (false, { state := .Open, failure_count := 2, success_count := 0,
                 last_failure_time := some 1, config := ⟨2, 2, 3, 5⟩ })) ∧
    (CircuitBreaker.can_execute
       { state := .Open, failure_count := 2, success_count := 0,
         last_failure_time := some 1, config := ⟨2, 2, 3, 5⟩ } 7 =
       (true, { state := .HalfOpen, failure_count := 2, success_count := 0,
                last_failure_time := some 1, config := ⟨2, 2, 3, 5⟩ })) ∧
    (CircuitBreaker.succMany
       { state := .HalfOpen, failure_count := 2, success_count := 0,
         last_failure_time := some 1, config := ⟨2, 2, 3, 5⟩ } 2).state = .Closed ∧
    (CircuitBreaker.record_failure
       { state := .HalfOpen, failure_count := 2, success_count := 0,
         last_failure_time := some 1, config := ⟨2, 2, 3, 5⟩ } 9 =
       { state := .Open, failure_count := 2, success_count := 0,
         last_failure_time := some 9, config := ⟨2, 2, 3, 5⟩ }) ∧
    (CircuitBreaker.record_success
       { state := .Closed, failure_count := 1, success_count := 0,
         last_failure_time := none, config := ⟨2, 2, 3, 5⟩ } =
       { state := .Closed, failure_count := 0, success_count := 0,
         last_failure_time := none, config := ⟨2, 2, 3, 5⟩ }) :=
  ⟨(C5_circuit_breaker_state_machine ⟨2, 2, 3, 5⟩).2.1 [0] (by decide),
   (C5_circuit_breaker_state_machine ⟨2, 2, 3, 5⟩).2.2.1 [0] 1 (by decide),
   ((C5_circuit_breaker_state_machine ⟨2, 2, 3, 5⟩).2.2.2.1 _ 1 4 rfl rfl).1 (by decide),
   ((C5_circuit_breaker_state_machine ⟨2, 2, 3, 5⟩).2.2.2.1 _ 1 7 rfl rfl).2 (by decide),
   ((C5_circuit_breaker_state_machine ⟨2, 2, 3, 5⟩).2.2.2.2.1 _ rfl rfl (by decide)).1,
   (C5_circuit_breaker_state_machine ⟨2, 2, 3, 5⟩).2.2.2.2.2.1 _ 9 rfl,
   (C5_circuit_breaker_state_machine ⟨2, 2, 3, 5⟩).2.2.2.2.2.2 _ rfl⟩

/-- Claim C1 counterexample: on a table whose prediction row 1 is already
linked to feedback 7, a second link_feedback call succeeds and overwrites
feedback_id with 8, where the claim requires the conditional write to
fail because the current feedback_id is not null. -/
theorem C1_second_link_succeeds :
    linkedRow.feedback_id = some 7 ∧
    PredictionRepo.link_feedback [linkedRow] 1 8 =
      .ok ({ linkedRow with feedback_id := some 8 },
           [{ linkedRow with feedback_id := some 8 }]) :=
  ⟨rfl, rfl⟩

/-- Claim C1 amended: link_feedback is an unconditional update keyed on
the primary id: it succeeds exactly when a prediction row with the given
id exists, regardless of the current feedback_id, and on success the
returned row carries the new feedback_id, overwriting any previous link. -/
theorem C1_link_feedback_unconditional (db : List PredictionRow) (pid fid : Nat) :
    ((∃ res, PredictionRepo.link_feedback db pid fid = .ok res) ↔
       ∃ row ∈ db, row.id = pid) ∧
    (∀ row dbNew, PredictionRepo.link_feedback db pid fid = .ok (row, dbNew) →
       row.feedback_id = some fid) := by
  constructor
  · constructor
    · rintro ⟨res, hres⟩
      unfold PredictionRepo.link_feedback at hres
      cases hfind : db.find? (fun row => row.id == pid) with
      | none =>
          rw [hfind] at hres
          exact absurd hres (by simp)
      | some row =>
          refine ⟨row, List.mem_of_find?_eq_some hfind, ?_⟩
          have := List.find?_some hfind
          simpa using this
    · rintro ⟨row, hmem, hid⟩
      unfold PredictionRepo.link_feedback
      cases hfind : db.find? (fun row => row.id == pid) with
      | none =>
          exfalso
          have := List.find?_eq_none.mp hfind row hmem
          simp [hid] at this
      | some row2 => exact ⟨_, rfl⟩
  · intro row dbNew h
    unfold PredictionRepo.link_feedback at h
    cases hfind : db.find? (fun r => r.id == pid) with
    | none =>
        rw [hfind] at h
        exact absurd h (by simp)
    | some r =>
        rw [hfind] at h
        simp only [Except.ok.injEq, Prod.mk.injEq] at h
        rw [← h.1]

/-- Witness for C1 on the one-row table already linked to feedback 7. -/
theorem C1_link_feedback_unconditional_witness :
    (∃ row ∈ [linkedRow], row.id = 1) ∧
    ({ linkedRow with feedback_id := some 8 } : PredictionRow).feedback_id = some 8 :=
  ⟨(C1_link_feedback_unconditional [linkedRow] 1 8).1.mp ⟨_, rfl⟩,
   (C1_link_feedback_unconditional [linkedRow] 1 8).2 _ _ rfl⟩

/-- Claim C7 counterexample: creating p1/default again over a table that
already holds p1/default reports status Internal, not the InvalidArgument
the claim requires. -/
theorem C7_duplicate_create_maps_to_internal :
    ControlServiceImpl.create_pipeline (fun _ => "") pipelinesAfterCreate 2 5 dupRequest =
      .error .Internal ∧
    StatusCode.Internal ≠ StatusCode.InvalidArgument :=
  ⟨rfl, by decide⟩

/-- Claim C7 amended: a create on an existing (name, namespace) pair hits
the unique index and the RPC maps the failure to status Internal (not
InvalidArgument); no row is inserted on that path, and a successful
create leaves exactly one matching row, which find_by_name returns with
status Pending. -/
theorem C7_create_unique_and_status (hash : String → String) (db : List PipelineRow)
    (freshId : Nat) (now : Int) (req : CreatePipelineRequest) :
    (req.name ≠ "" → (∃ row ∈ db, row.name = req.name ∧ row.nspace = req.nspace) →
       ControlServiceImpl.create_pipeline hash db freshId now req = .error .Internal) ∧
    (∀ resp dbNew,
       ControlServiceImpl.create_pipeline hash db freshId now req = .ok (resp, dbNew) →
       (dbNew.filter (fun row => row.name == req.name && row.nspace == req.nspace)).length = 1 ∧
       (∃ row, PipelineRepo.find_by_name dbNew req.name req.nspace = some row ∧
          row.name = req.name ∧ row.nspace = req.nspace ∧ row.status = .Pending)) := by
  constructor
  · rintro hn ⟨row, hmem, hname, hns⟩
    have hany : db.any (fun row => row.name == req.name && row.nspace == req.nspace) = true :=
      List.any_eq_true.mpr ⟨row, hmem, by simp [hname, hns]⟩
    have hcreate : PipelineRepo.create db freshId now req.name req.nspace
        (hash req.spec_yaml) req.spec_yaml = .error .UniqueViolation := by
      unfold PipelineRepo.create
      rw [if_pos hany]
    simp only [ControlServiceImpl.create_pipeline]
    rw [if_neg (by simpa using hn), hcreate]
  · intro resp dbNew h
    simp only [ControlServiceImpl.create_pipeline] at h
    by_cases hname : req.name == ""
    · rw [if_pos hname] at h
      exact absurd h (by simp)
    · rw [if_neg hname] at h
      cases hcr : PipelineRepo.create db freshId now req.name req.nspace
          (hash req.spec_yaml) req.spec_yaml with
      | error e =>
          rw [hcr] at h
          exact absurd h (by simp)
      | ok pr =>
          rw [hcr] at h
          obtain ⟨pipeline, dbN⟩ := pr
          simp only [Except.ok.injEq, Prod.mk.injEq] at h
          unfold PipelineRepo.create at hcr
          by_cases hany : db.any (fun row => row.name == req.name && row.nspace == req.nspace)
          · rw [if_pos hany] at hcr
            exact absurd hcr (by simp)
          · rw [if_neg hany] at hcr
            simp only [Except.ok.injEq, Prod.mk.injEq] at hcr
            have hnomatch : ∀ r ∈ db,
                (r.name == req.name && r.nspace == req.nspace) = false := by
              intro r hr
              by_contra hcontra
              rw [Bool.not_eq_false] at hcontra
              exact hany (List.any_eq_true.mpr ⟨r, hr, hcontra⟩)
            have hdbNew : dbNew = db ++
                [{ id := freshId, name := req.name, nspace := req.nspace,
                   spec_hash := hash req.spec_yaml, spec_yaml := req.spec_yaml,
                   status := .Pending, conveyor_pipeline_id := none,
                   created_at := now, updated_at := now }] := by
              rw [← h.2, ← hcr.2]
            constructor
            · rw [hdbNew, List.filter_append]
              have hfilterdb : db.filter
                  (fun row => row.name == req.name && row.nspace == req.nspace) = [] := by
                rw [List.filter_eq_nil_iff]
                intro a ha
                simp [hnomatch a ha]
              rw [hfilterdb]
              simp
            · refine ⟨{ id := freshId, name := req.name, nspace := req.nspace,
                        spec_hash := hash req.spec_yaml, spec_yaml := req.spec_yaml,
                        status := .Pending, conveyor_pipeline_id := none,
                        created_at := now, updated_at := now }, ?_, rfl, rfl, rfl⟩
              rw [hdbNew]
              unfold PipelineRepo.find_by_name
              rw [List.find?_append]
              have hnone : db.find?
                  (fun row => row.name == req.name && row.nspace == req.nspace) = none := by
                rw [List.find?_eq_none]
                intro a ha
                simp [hnomatch a ha]
              rw [hnone]
              simp

/-- Witness for C7: the duplicate create over the one-row table, and the
successful create over the empty table producing that very table. -/
theorem C7_create_unique_and_status_witness :
    (ControlServiceImpl.create_pipeline (fun _ => "") pipelinesAfterCreate 2 5 dupRequest =
       .error .Internal) ∧
    ((pipelinesAfterCreate.filter
        (fun row => row.name == dupRequest.name && row.nspace == dupRequest.nspace)).length = 1 ∧
     (∃ row, PipelineRepo.find_by_name pipelinesAfterCreate dupRequest.name dupRequest.nspace =
          some row ∧
        row.name = dupRequest.name ∧ row.nspace = dupRequest.nspace ∧
        row.status = .Pending)) :=
  ⟨(C7_create_unique_and_status (fun _ => "") pipelinesAfterCreate 2 5 dupRequest).1
      (by decide) ⟨p1Row, List.mem_singleton.mpr rfl, rfl, rfl⟩,
   (C7_create_unique_and_status (fun _ => "") [] 1 0 dupRequest).2
      { pipeline_id := 1, name := "p1", status := .Pending } pipelinesAfterCreate rfl⟩

/-- Claim C4 counterexample: a feedback record whose prediction is
missing from the store makes process return the PredictionNotFound
error, not the Ok-with-no-example skip the claim requires for case (a). -/
theorem C4_missing_prediction_is_error :
    FeedbackJoinTransform.new.process [] 0 "ex-1" feedbackOnTime =
      .error (.PredictionNotFound "1") :=
  rfl

/-- Claim C4 amended: process errors with PredictionNotFound when the
referenced prediction row is absent; when the row is present and its
prediction JSON parses, the converted record carries no TTL, so the
expired-skip can never fire, and the outcome is Ok(None) exactly when
feedback_time minus prediction_time exceeds max_join_delay_secs,
otherwise Ok(Some(LabeledExample)). -/
theorem C4_process_skip_and_error_cases (t : FeedbackJoinTransform)
    (db : List PredictionRow) (now : Int) (freshId : String)
    (feedback : FeedbackRecord) :
    (PredictionRepo.find_by_id db feedback.prediction_id = none →
       t.process db now freshId feedback =
         .error (.PredictionNotFound (toString feedback.prediction_id))) ∧
    (∀ row stored, PredictionRepo.find_by_id db feedback.prediction_id = some row →
       FeedbackJoinTransform.convert_to_stored_prediction row = .ok stored →
       stored.is_expired now = false ∧
       t.process db now freshId feedback =
         (if feedback.feedback_time - stored.prediction.timestamp > t.max_join_delay_secs
          then .ok none
          else .ok (some (.from_prediction_and_feedback freshId stored feedback)))) := by
  constructor
  · intro hfind
    unfold FeedbackJoinTransform.process
    rw [hfind]
  · intro row stored hfind hconv
    have httl : stored.ttl_seconds = none := by
      unfold FeedbackJoinTransform.convert_to_stored_prediction at hconv
      cases hparse : parsePredictionResult row.prediction_json with
      | none =>
          rw [hparse] at hconv
          exact absurd hconv (by simp)
      | some res =>
          rw [hparse] at hconv
          simp only [Except.ok.injEq] at hconv
          rw [← hconv]
    have hexp : stored.is_expired now = false := by
      unfold StoredPrediction.is_expired
      rw [httl]
    refine ⟨hexp, ?_⟩
    unfold FeedbackJoinTransform.process
    rw [hfind]
    dsimp only
    rw [hconv]
    dsimp only
    rw [hexp]
    simp

/-- Witness for C4 on the one-row anomaly table. -/
theorem C4_process_skip_and_error_cases_witness :
    (FeedbackJoinTransform.new.process [] 0 "ex-1" feedbackOnTime =
       .error (.PredictionNotFound "1")) ∧
    anomalyStored.is_expired 100 = false ∧
    FeedbackJoinTransform.new.process [anomalyRow] 100 "ex-1" feedbackOnTime =
      (if feedbackOnTime.feedback_time - anomalyStored.prediction.timestamp >
          FeedbackJoinTransform.new.max_join_delay_secs
       then .ok none
       else .ok (some (.from_prediction_and_feedback "ex-1" anomalyStored feedbackOnTime))) :=
  ⟨(C4_process_skip_and_error_cases FeedbackJoinTransform.new [] 0 "ex-1" feedbackOnTime).1 rfl,
   ((C4_process_skip_and_error_cases FeedbackJoinTransform.new [anomalyRow] 100 "ex-1"
       feedbackOnTime).2 anomalyRow anomalyStored rfl rfl).1,
   ((C4_process_skip_and_error_cases FeedbackJoinTransform.new [anomalyRow] 100 "ex-1"
       feedbackOnTime).2 anomalyRow anomalyStored rfl rfl).2⟩

/-- Claim C8 counterexample: the manifest with one training-export stage
whose config is the JSON number 5 passes validation although that config
parses against no stage schema, training-export included. -/
theorem C8_unchecked_training_export_config :
    validate_manifest junkExportManifest = .ok () ∧
    parseTrainingExportSpec (.num 5) = none ∧
    parseFeatureExtractionConfig (.num 5) = none ∧
    parseMlInferenceConfig (.num 5) = none ∧
    parseDriftDetectionConfig (.num 5) = none :=
  ⟨rfl, rfl, rfl, rfl, rfl⟩

/-- validate_stage succeeds exactly when the enforced config check does. -/
theorem validate_stage_ok_iff (stage : FlywheelStage) :
    validate_stage stage = .ok () ↔ stageConfigOk stage = true := by
  obtain ⟨id, ty, config⟩ := stage
  cases ty
  case FeatureExtraction =>
    cases hp : parseFeatureExtractionConfig config <;>
      simp [validate_stage, stageConfigOk, hp]
  case MlInference =>
    cases hp : parseMlInferenceConfig config <;>
      simp [validate_stage, stageConfigOk, hp]
  case DriftDetection =>
    cases hp : parseDriftDetectionConfig config <;>
      simp [validate_stage, stageConfigOk, hp]
  case FeedbackJoin => simp [validate_stage, stageConfigOk]
  case TrainingExport => simp [validate_stage, stageConfigOk]

/-- The stage loop succeeds exactly when every id is non-empty, no id
repeats or collides with the seen set, and every enforced config check
passes. -/
theorem validateStagesLoop_ok_iff (stages : List FlywheelStage) :
    ∀ seen : List String,
    validateStagesLoop stages seen = .ok () ↔
      ((∀ s ∈ stages, s.id ≠ "") ∧ (∀ s ∈ stages, s.id ∉ seen) ∧
       (stages.map FlywheelStage.id).Nodup ∧
       (∀ s ∈ stages, stageConfigOk s = true)) := by
  induction stages with
  | nil =>
      intro seen
      simp [validateStagesLoop]
  | cons stage rest ih =>
      intro seen
      unfold validateStagesLoop
      by_cases h1 : stage.id = ""
      · rw [if_pos (by simpa using h1)]
        constructor
        · intro hcontra
          exact absurd hcontra (by simp)
        · rintro ⟨ha, -, -, -⟩
          exact absurd h1 (ha stage (List.mem_cons_self stage rest))
      · rw [if_neg (by simpa using h1)]
        have hcont : seen.contains stage.id = true ↔ stage.id ∈ seen := by
          simp [List.contains, List.elem_iff]
        by_cases h2 : stage.id ∈ seen
        · rw [if_pos (hcont.mpr h2)]
          constructor
          · intro hcontra
            exact absurd hcontra (by simp)
          · rintro ⟨-, hb, -, -⟩
            exact absurd h2 (hb stage (List.mem_cons_self stage rest))
        · rw [if_neg (fun hc => h2 (hcont.mp hc))]
          cases hv : validate_stage stage with
          | error e =>
              have hcfg : ¬ stageConfigOk stage = true := by
                intro hok
                have := (validate_stage_ok_iff stage).mpr hok
                rw [hv] at this
                exact absurd this (by simp)
              constructor
              · intro hcontra
                exact absurd hcontra (by simp)
              · rintro ⟨-, -, -, hd⟩
                exact absurd (hd stage (List.mem_cons_self stage rest)) hcfg
          | ok u =>
              cases u
              have hcfg : stageConfigOk stage = true := (validate_stage_ok_iff stage).mp hv
              rw [ih (stage.id :: seen)]
              simp only [List.mem_cons, List.map_cons, List.nodup_cons, List.mem_map,
                         forall_eq_or_imp]
              constructor
              · rintro ⟨ha, hb, hc, hd⟩
                refine ⟨⟨h1, ha⟩, ⟨h2, fun s hs => (not_or.mp (hb s hs)).2⟩,
                        ⟨?_, hc⟩, ⟨hcfg, hd⟩⟩
                rintro ⟨s, hs, hsid⟩
                exact (not_or.mp (hb s hs)).1 hsid
              · rintro ⟨⟨-, ha⟩, ⟨-, hb⟩, ⟨hc1, hc⟩, ⟨-, hd⟩⟩
                refine ⟨ha, fun s hs => not_or.mpr ⟨?_, hb s hs⟩, hc, hd⟩
                intro hsid
                exact hc1 ⟨s, hs, hsid⟩

/-- Claim C8 amended: validate_manifest accepts a manifest exactly when
the pipeline name is non-empty, there is at least one stage and one sink,
all stage ids are non-empty and pairwise distinct, and every stage of
type feature-extraction, ml-inference or drift-detection has a config
parsing against its schema; feedback-join and training-export configs are
not checked. -/
theorem C8_validate_manifest_iff (m : FlywheelPipelineManifest) :
    validate_manifest m = .ok () ↔
      (m.metadata.name ≠ "" ∧ m.spec.stages ≠ [] ∧ m.spec.sinks ≠ [] ∧
       (∀ s ∈ m.spec.stages, s.id ≠ "") ∧
       (m.spec.stages.map FlywheelStage.id).Nodup ∧
       (∀ s ∈ m.spec.stages, stageConfigOk s = true)) := by
  unfold validate_manifest validate_spec
  by_cases h1 : m.metadata.name = ""
  · rw [if_pos (by simpa using h1)]
    constructor
    · intro hcontra
      exact absurd hcontra (by simp)
    · rintro ⟨ha, -⟩
      exact absurd h1 ha
  · rw [if_neg (by simpa using h1)]
    by_cases h2 : m.spec.stages = []
    · rw [if_pos (by simpa [List.isEmpty_iff] using h2)]
      constructor
      · intro hcontra
        exact absurd hcontra (by simp)
      · rintro ⟨-, hb, -⟩
        exact absurd h2 hb
    · rw [if_neg (by simpa [List.isEmpty_iff] using h2)]
      by_cases h3 : m.spec.sinks = []
      · rw [if_pos (by simpa [List.isEmpty_iff] using h3)]
        constructor
        · intro hcontra
          exact absurd hcontra (by simp)
        · rintro ⟨-, -, hc, -⟩
          exact absurd h3 hc
      · rw [if_neg (by simpa [List.isEmpty_iff] using h3)]
        rw [validateStagesLoop_ok_iff m.spec.stages []]
        simp [h1, h2, h3]

/-- Witness for C8 at the junk training-export manifest. -/
theorem C8_validate_manifest_iff_witness :
    validate_manifest junkExportManifest = .ok () ↔
      (junkExportManifest.metadata.name ≠ "" ∧
       junkExportManifest.spec.stages ≠ [] ∧
       junkExportManifest.spec.sinks ≠ [] ∧
       (∀ s ∈ junkExportManifest.spec.stages, s.id ≠ "") ∧
       (junkExportManifest.spec.stages.map FlywheelStage.id).Nodup ∧
       (∀ s ∈ junkExportManifest.spec.stages, stageConfigOk s = true)) :=
  C8_validate_manifest_iff junkExportManifest

/-- Each floored PSI summand over a pair of equal proportions is zero, so
zipping a histogram with itself sums to zero. -/
theorem psiTerms_zip_self (ln : Rat → Rat) (l : List Rat) :
    psiTerms ln (l.zip l) = 0 := by
  induction l with
  | nil => rfl
  | cons x rest ih =>
      simp only [List.zip_cons_cons, psiTerms, sub_self, zero_mul, zero_add]
      exact ih

/-- compute_psi on the shifted-uniform pair is exactly zero: each dataset
is binned over its own min and max, so both histogram to the same flat
distribution and every summand vanishes. -/
theorem psi_shift_zero (ln : Rat → Rat) :
    compute_psi ln refSample curSample 10 = 0 := by
  unfold compute_psi
  have h : histogram curSample 10 = histogram refSample 10 := by decide
  rw [h, psiTerms_zip_self]

/-- A floored PSI summand is nonnegative for any logarithm strictly
monotone on the positives with value zero at one. -/
theorem psi_term_nonneg (ln : Rat → Rat) (h1 : ln 1 = 0)
    (hmono : StrictMonoOn ln (Set.Ioi (0 : Rat))) {p q : Rat}
    (hp : 0 < p) (hq : 0 < q) : 0 ≤ (q - p) * ln (q / p) := by
  rcases lt_trichotomy p q with h | h | h
  · have hgt : 1 < q / p := (one_lt_div hp).mpr h
    have hpos : ln 1 < ln (q / p) :=
      hmono (Set.mem_Ioi.mpr one_pos) (Set.mem_Ioi.mpr (lt_trans one_pos hgt)) hgt
    rw [h1] at hpos
    exact le_of_lt (mul_pos (sub_pos.mpr h) hpos)
  · rw [h, sub_self, zero_mul]
  · have hlt : q / p < 1 := (div_lt_one hp).mpr h
    have hqp : 0 < q / p := div_pos hq hp
    have hneg : ln (q / p) < ln 1 :=
      hmono (Set.mem_Ioi.mpr hqp) (Set.mem_Ioi.mpr one_pos) hlt
    rw [h1] at hneg
    exact le_of_lt (mul_pos_of_neg_of_neg (sub_neg.mpr h) hneg)

/-- A floored PSI summand over distinct positive proportions is strictly
positive under the same logarithm hypotheses. -/
theorem psi_term_pos (ln : Rat → Rat) (h1 : ln 1 = 0)
    (hmono : StrictMonoOn ln (Set.Ioi (0 : Rat))) {p q : Rat}
    (hp : 0 < p) (hq : 0 < q) (hne : q ≠ p) : 0 < (q - p) * ln (q / p) := by
  rcases lt_trichotomy p q with h | h | h
  · have hgt : 1 < q / p := (one_lt_div hp).mpr h
    have hpos : ln 1 < ln (q / p) :=
      hmono (Set.mem_Ioi.mpr one_pos) (Set.mem_Ioi.mpr (lt_trans one_pos hgt)) hgt
    rw [h1] at hpos
    exact mul_pos (sub_pos.mpr h) hpos
  · exact absurd h.symm hne
  · have hlt : q / p < 1 := (div_lt_one hp).mpr h
    have hqp : 0 < q / p := div_pos hq hp
    have hneg : ln (q / p) < ln 1 :=
      hmono (Set.mem_Ioi.mpr hqp) (Set.mem_Ioi.mpr one_pos) hlt
    rw [h1] at hneg
    exact mul_pos_of_neg_of_neg (sub_neg.mpr h) hneg

/-- Claim C2: compute_psi does NOT bin the current dataset over the
reference min and max; it bins each dataset over its own range.  On the
uniform sample against its half-shifted copy the code yields exactly 0,
while the formula the spec words (both datasets binned over the reference
range, 1e-4 floors, sum of (q-p) ln(q/p)) yields a strictly positive
value, for every logarithm that is strictly monotone on the positives and
zero at one.  The sign conventions make the repo test
test_psi_with_drift, which asserts psi greater than 0.1 on these very
inputs, fail. -/
theorem C2_psi_bins_over_own_range (ln : Rat → Rat) (h1 : ln 1 = 0)
    (hmono : StrictMonoOn ln (Set.Ioi (0 : Rat))) :
    compute_psi ln refSample curSample 10 = 0 ∧
    0 < compute_psi_from_spec ln refSample curSample 10 := by
  refine ⟨psi_shift_zero ln, ?_⟩
  have hlo : refSample.foldl min (refSample.headD 0) = 0 := by decide
  have hhi : refSample.foldl max (refSample.headD 0) = 99/100 := by decide
  have hp : histogramOnRange 0 (99/100) refSample 10 =
      [1/10, 1/10, 1/10, 1/10, 1/10, 1/10, 1/10, 1/10, 1/10, 1/10] := by decide
  have hq : histogramOnRange 0 (99/100) curSample 10 =
      [0, 0, 0, 0, 0, 1/10, 1/10, 1/10, 1/10, 3/5] := by decide
  simp only [compute_psi_from_spec]
  rw [hlo, hhi, hp, hq]
  have hA : max (1/10 : Rat) (1/10000) = 1/10 := by decide
  have hB : max (0 : Rat) (1/10000) = 1/10000 := by decide
  have hC : max (3/5 : Rat) (1/10000) = 3/5 := by decide
  simp only [psiTerms, List.zip_cons_cons, List.zip_nil_right, hA, hB, hC]
  have ht1 : 0 < ((1/10000 : Rat) - 1/10) * ln (1/10000 / (1/10)) :=
    psi_term_pos ln h1 hmono (by norm_num) (by norm_num) (by norm_num)
  have ht2 : ((1/10 : Rat) - 1/10) * ln (1/10 / (1/10)) = 0 := by
    rw [sub_self, zero_mul]
  have ht3 : 0 < ((3/5 : Rat) - 1/10) * ln (3/5 / (1/10)) :=
    psi_term_pos ln h1 hmono (by norm_num) (by norm_num) (by norm_num)
  simp only [ht2, add_zero, zero_add]
  linarith [ht1, ht3]

/-- Witness for C2 at a concrete strictly monotone logarithm stand-in. -/
theorem C2_psi_bins_over_own_range_witness :
    lnWitness 1 = 0 ∧
    compute_psi lnWitness refSample curSample 10 = 0 ∧
    0 < compute_psi_from_spec lnWitness refSample curSample 10 := by
  have hmono : StrictMonoOn lnWitness (Set.Ioi (0 : Rat)) := by
    intro x hx y hy hxy
    have hx0 : (0 : Rat) < x := Set.mem_Ioi.mp hx
    have hy0 : (0 : Rat) < y := Set.mem_Ioi.mp hy
    have hinv : 1 / y < 1 / x := one_div_lt_one_div_of_lt hx0 hxy
    unfold lnWitness
    linarith
  have h1 : lnWitness 1 = 0 := by norm_num [lnWitness]
  exact ⟨h1, (C2_psi_bins_over_own_range lnWitness h1 hmono).1,
         (C2_psi_bins_over_own_range lnWitness h1 hmono).2⟩

/-- Claim C3: on the reference Uniform[0,1) sample of size 100 with the
current window its half-shifted copy, check_drift under the default
config reports is_drifted true but with drift_type Performance (the fresh
tracker reports accuracy 0, below the 0.85 threshold), psi_score Some 0
(not greater than 0.1) and severity None — against the claimed
Statistical drift with psi_score above 0.1. -/
theorem C3_shift_detector_reports_zero_psi (ln : Rat → Rat) :
    DriftDetector.check_drift ln shiftDetector =
      { is_drifted := true, drift_type := some .Performance, severity := .None,
        psi_score := some 0, kl_divergence := none,
        accuracy_delta := some (9/10) } := by
  have hd : shiftDetector =
      { config := DriftConfig.default, reference_values := refSample,
        current_window := curSample,
        performance_tracker := PerformanceTracker.new,
        baseline_accuracy := 9/10 } := by decide
  rw [hd]
  simp only [DriftDetector.check_drift]
  rw [psi_shift_zero ln]
  decide

end Flywheel
